import Mathlib

/-!
# PCG Arena — verification of the battle lifecycle and rating engine

Shallow embedding of the core of the `pcg-arena` backend
(`src/backend/src/main.py`, `glicko2.py`, `matchmaking.py`) in Lean 4,
with theorems settling the specification claims about payload
canonicalization, idempotent vote ingestion, Glicko-2 updates, pair
statistics, and the AGIS matchmaking sampler.

Conventions:
* Python floats are modelled as real numbers (`ℝ`).
* Python strings compare by code point; `charsLt`/`sLt`/`sLe` below are
  kernel-computable comparators mirroring that order.
* SQLite tables are association lists of row structures; `UPDATE ... WHERE
  key = ?` is a keyed map, `INSERT` an append.
* Request-time randomness (`random.choices`, `ORDER BY RANDOM()`), UUID
  generation and clock reads are oracle parameters passed to the embedded
  functions.
-/

/-! ## String comparison (Python code-point order), kernel-computable -/

/-- Lexicographic code-point comparison of character lists, mirroring how
Python compares strings. -/
def charsLt : List Char → List Char → Bool
  | [], [] => false
  | [], _ :: _ => true
  | _ :: _, [] => false
  | a :: as, b :: bs =>
    if a.toNat < b.toNat then true
    else if b.toNat < a.toNat then false
    else charsLt as bs

/-- Python `s < t` on strings. -/
def sLt (s t : String) : Bool := charsLt s.data t.data

/-- Python `s <= t` on strings. -/
def sLe (s t : String) : Bool := sLt s t || s == t

theorem charsLt_irrefl (as : List Char) : charsLt as as = false := by
  induction as with
  | nil => rfl
  | cons a as ih => simp [charsLt, ih]

theorem charsLt_total_eq (as bs : List Char) (h1 : charsLt as bs = false)
    (h2 : charsLt bs as = false) : as = bs := by
  induction as generalizing bs with
  | nil =>
    cases bs with
    | nil => rfl
    | cons b bs => simp [charsLt] at h1
  | cons a as ih =>
    cases bs with
    | nil => simp [charsLt] at h2
    | cons b bs =>
      simp only [charsLt] at h1 h2
      by_cases hab : a.toNat < b.toNat
      · simp [hab] at h1
      · by_cases hba : b.toNat < a.toNat
        · simp [hba, hab] at h2
        · simp [hab, hba] at h1 h2
          have hn : a.toNat = b.toNat := by omega
          have hc : a = b := by
            rw [← Char.ofNat_toNat a, ← Char.ofNat_toNat b, hn]
          rw [hc, ih bs h1 h2]

theorem charsLt_asymm (as bs : List Char) (h : charsLt as bs = true) :
    charsLt bs as = false := by
  induction as generalizing bs with
  | nil =>
    cases bs with
    | nil => simp [charsLt] at h
    | cons b bs => simp [charsLt]
  | cons a as ih =>
    cases bs with
    | nil => simp [charsLt] at h
    | cons b bs =>
      simp only [charsLt] at h ⊢
      by_cases hab : a.toNat < b.toNat
      · simp [Nat.lt_asymm hab, hab]
      · by_cases hba : b.toNat < a.toNat
        · simp [hab, hba] at h
        · simp [hab, hba] at h ⊢
          exact ih bs h

theorem charsLt_trans (as bs cs : List Char) (h1 : charsLt as bs = true)
    (h2 : charsLt bs cs = true) : charsLt as cs = true := by
  induction as generalizing bs cs with
  | nil =>
    cases cs with
    | nil => cases bs <;> simp [charsLt] at h1 h2
    | cons c cs => simp [charsLt]
  | cons a as ih =>
    cases bs with
    | nil => simp [charsLt] at h1
    | cons b bs =>
      cases cs with
      | nil => simp [charsLt] at h2
      | cons c cs =>
        simp only [charsLt] at h1 h2 ⊢
        by_cases hab : a.toNat < b.toNat
        · by_cases hbc : b.toNat < c.toNat
          · simp [show a.toNat < c.toNat by omega]
          · by_cases hcb : c.toNat < b.toNat
            · simp [hab, hbc, hcb] at h2
            · simp [show a.toNat < c.toNat by omega]
        · by_cases hba : b.toNat < a.toNat
          · simp [hab, hba] at h1
          · by_cases hbc : b.toNat < c.toNat
            · simp [show a.toNat < c.toNat by omega]
            · by_cases hcb : c.toNat < b.toNat
              · simp [hab, hbc, hcb] at h2
              · simp [hab, hba] at h1
                simp [hbc, hcb] at h2
                simp [show ¬ a.toNat < c.toNat by omega,
                  show ¬ c.toNat < a.toNat by omega]
                exact ih bs cs h1 h2

theorem sLt_trans (s t u : String) (h1 : sLt s t = true) (h2 : sLt t u = true) :
    sLt s u = true := charsLt_trans _ _ _ h1 h2

theorem sLt_total_eq (s t : String) (h1 : sLt s t = false) (h2 : sLt t s = false) :
    s = t := String.ext (charsLt_total_eq _ _ h1 h2)

theorem sLt_asymm (s t : String) (h : sLt s t = true) : sLt t s = false :=
  charsLt_asymm _ _ h

theorem sLe_trans (s t u : String) (h1 : sLe s t = true) (h2 : sLe t u = true) :
    sLe s u = true := by
  simp only [sLe, Bool.or_eq_true, beq_iff_eq] at h1 h2 ⊢
  rcases h1 with h1 | rfl
  · rcases h2 with h2 | rfl
    · exact Or.inl (sLt_trans _ _ _ h1 h2)
    · exact Or.inl h1
  · exact h2

theorem sLe_antisymm (s t : String) (h1 : sLe s t = true) (h2 : sLe t s = true) :
    s = t := by
  simp only [sLe, Bool.or_eq_true, beq_iff_eq] at h1 h2
  rcases h1 with h1 | rfl
  · rcases h2 with h2 | rfl
    · have ha := sLt_asymm s t h1
      rw [ha] at h2
      exact absurd h2 (by simp)
    · rfl
  · rfl

theorem sLe_total (s t : String) : sLe s t = true ∨ sLe t s = true := by
  simp only [sLe, Bool.or_eq_true, beq_iff_eq]
  rcases h1 : sLt s t with _ | _
  · rcases h2 : sLt t s with _ | _
    · exact Or.inl (Or.inr (sLt_total_eq s t h1 h2))
    · exact Or.inr (Or.inl rfl)
  · exact Or.inl (Or.inl rfl)

/-! ## Sorting as Python `sorted` does -/

/-- Order used by Python `sorted` on a list of strings. -/
def tagLE (a b : String) : Prop := sLe a b = true

instance : DecidableRel tagLE := fun _ _ => inferInstanceAs (Decidable (_ = true))

instance : IsTotal String tagLE := ⟨sLe_total⟩

instance : IsTrans String tagLE := ⟨fun a b c => sLe_trans a b c⟩

instance : IsAntisymm String tagLE := ⟨fun a b => sLe_antisymm a b⟩

/-- Python `sorted` on a list of strings (stable; insertion sort is a valid
model because the order is total). -/
def pySorted (l : List String) : List String := List.insertionSort tagLE l

theorem pySorted_eq_of_perm (l l' : List String) (h : l.Perm l') :
    pySorted l = pySorted l' :=
  List.eq_of_perm_of_sorted
    ((List.perm_insertionSort tagLE l).trans
      (h.trans (List.perm_insertionSort tagLE l').symm))
    (List.sorted_insertionSort tagLE l)
    (List.sorted_insertionSort tagLE l')

/-- Order on (key, rendered value) pairs used to model CPython
`json.dumps(..., sort_keys=True)`, which serializes a dict by sorting
`dct.items()` as tuples.  Keys of a dict are unique, so the value component
is only a formal tie-break making the order antisymmetric. -/
def pairLE (p q : String × String) : Prop :=
  (sLt p.1 q.1 || (p.1 == q.1 && sLe p.2 q.2)) = true

instance : DecidableRel pairLE := fun _ _ => inferInstanceAs (Decidable (_ = true))

instance : IsTotal (String × String) pairLE := by
  constructor
  intro p q
  simp only [pairLE, Bool.or_eq_true, Bool.and_eq_true, beq_iff_eq]
  rcases h1 : sLt p.1 q.1 with _ | _
  · rcases h2 : sLt q.1 p.1 with _ | _
    · have hk := sLt_total_eq _ _ h1 h2
      rcases sLe_total p.2 q.2 with hv | hv
      · exact Or.inl (Or.inr ⟨hk, hv⟩)
      · exact Or.inr (Or.inr ⟨hk.symm, hv⟩)
    · exact Or.inr (Or.inl rfl)
  · exact Or.inl (Or.inl rfl)

instance : IsTrans (String × String) pairLE := by
  constructor
  intro p q r hpq hqr
  simp only [pairLE, Bool.or_eq_true, Bool.and_eq_true, beq_iff_eq] at hpq hqr ⊢
  rcases hpq with h1 | ⟨hk1, hv1⟩
  · rcases hqr with h2 | ⟨hk2, _⟩
    · exact Or.inl (sLt_trans _ _ _ h1 h2)
    · exact Or.inl (hk2 ▸ h1)
  · rcases hqr with h2 | ⟨hk2, hv2⟩
    · exact Or.inl (hk1 ▸ h2)
    · exact Or.inr ⟨hk1.trans hk2, sLe_trans _ _ _ hv1 hv2⟩

instance : IsAntisymm (String × String) pairLE := by
  constructor
  intro p q hpq hqp
  simp only [pairLE, Bool.or_eq_true, Bool.and_eq_true, beq_iff_eq] at hpq hqp
  rcases hpq with h1 | ⟨hk1, hv1⟩
  · rcases hqp with h2 | ⟨hk2, _⟩
    · exact absurd h2 (by simp [sLt_asymm _ _ h1])
    · rw [hk2] at h1
      simp [sLt, charsLt_irrefl] at h1
  · rcases hqp with h2 | ⟨_, hv2⟩
    · rw [hk1] at h2
      simp [sLt, charsLt_irrefl] at h2
    · exact Prod.ext hk1 (sLe_antisymm _ _ hv1 hv2)

theorem sortPairs_eq_of_perm (l l' : List (String × String)) (h : l.Perm l') :
    List.insertionSort pairLE l = List.insertionSort pairLE l' :=
  List.eq_of_perm_of_sorted
    ((List.perm_insertionSort pairLE l).trans
      (h.trans (List.perm_insertionSort pairLE l').symm))
    (List.sorted_insertionSort pairLE l)
    (List.sorted_insertionSort pairLE l')

/-! ## JSON values and CPython canonical serialization

Models the JSON documents produced by `json.dumps(obj, sort_keys=True,
separators=(',', ':'))` in `compute_payload_hash`.  Python `dict`s are
`JsonFields` association lists (keys unique by construction in Python;
nothing below needs that assumption).  JSON numbers are restricted to
integers: the telemetry floats of the source are not modelled, which no
claim requires. -/

mutual
inductive Json where
  | null : Json
  | bool (b : Bool) : Json
  | num (n : Int) : Json
  | str (s : String) : Json
  | arr (xs : JsonList) : Json
  | obj (fs : JsonFields) : Json
deriving DecidableEq
inductive JsonList where
  | nil : JsonList
  | cons (hd : Json) (tl : JsonList) : JsonList
deriving DecidableEq
inductive JsonFields where
  | nil : JsonFields
  | cons (k : String) (v : Json) (tl : JsonFields) : JsonFields
deriving DecidableEq
end

/-- Double-quote character. -/
def jqChar : Char := Char.ofNat 34

/-- Backslash character. -/
def jbsChar : Char := Char.ofNat 92

/-- Opening curly brace as a string. -/
def lcurly : String := ⟨[Char.ofNat 123]⟩

/-- Closing curly brace as a string. -/
def rcurly : String := ⟨[Char.ofNat 125]⟩

/-- Lowercase hexadecimal digit. -/
def hexDigit (n : Nat) : Char :=
  if n < 10 then Char.ofNat (48 + n) else Char.ofNat (87 + n)

/-- Escape sequence `\uXXXX` for a 16-bit value. -/
def uEscape (n : Nat) : List Char :=
  [jbsChar, 'u', hexDigit ((n >>> 12) % 16), hexDigit ((n >>> 8) % 16),
   hexDigit ((n >>> 4) % 16), hexDigit (n % 16)]

/-- Escaping of one character as CPython `json.dumps` does with the default
`ensure_ascii=True`: quote and backslash escaped, control characters with
short forms or `\uXXXX`, printable ASCII kept, anything above `~` escaped
(surrogate pairs beyond the BMP). -/
def jsonEscapeChar (c : Char) : List Char :=
  let n := c.toNat
  if n = 34 then [jbsChar, jqChar]
  else if n = 92 then [jbsChar, jbsChar]
  else if n = 8 then [jbsChar, 'b']
  else if n = 9 then [jbsChar, 't']
  else if n = 10 then [jbsChar, 'n']
  else if n = 12 then [jbsChar, 'f']
  else if n = 13 then [jbsChar, 'r']
  else if 32 ≤ n ∧ n ≤ 126 then [c]
  else if n < 65536 then uEscape n
  else uEscape (55296 + (n - 65536) / 1024) ++ uEscape (56320 + (n - 65536) % 1024)

/-- JSON string literal: quoted and escaped. -/
def jsonQuote (s : String) : String :=
  ⟨jqChar :: (s.data.flatMap jsonEscapeChar ++ [jqChar])⟩

mutual
/-- Canonical serialization: `json.dumps(j, sort_keys=True, separators=(',', ':'))`.
Object fields are rendered first and then sorted, which agrees with CPython
sorting `dct.items()` before serializing because the sort key is the raw
key string. -/
def dumpJson : Json → String
  | .null => "null"
  | .bool true => "true"
  | .bool false => "false"
  | .num n => toString n
  | .str s => jsonQuote s
  | .arr xs => "[" ++ String.intercalate "," (dumpList xs) ++ "]"
  | .obj fs => lcurly ++ String.intercalate ","
      ((List.insertionSort pairLE (dumpFields fs)).map
        (fun p => jsonQuote p.1 ++ ":" ++ p.2)) ++ rcurly
  termination_by structural j => j
def dumpList : JsonList → List String
  | .nil => []
  | .cons x xs => dumpJson x :: dumpList xs
  termination_by structural xs => xs
def dumpFields : JsonFields → List (String × String)
  | .nil => []
  | .cons k v fs => (k, dumpJson v) :: dumpFields fs
  termination_by structural fs => fs
end

/-! ### Equality of telemetry objects up to key ordering -/

mutual
/-- Two JSON values equal up to reordering of object keys, at every level.
Arrays stay ordered; object field lists are related by a permutation pairing
equal keys with `KeyPerm`-related values. -/
inductive KeyPerm : Json → Json → Prop
  | null : KeyPerm .null .null
  | bool (b : Bool) : KeyPerm (.bool b) (.bool b)
  | num (n : Int) : KeyPerm (.num n) (.num n)
  | str (s : String) : KeyPerm (.str s) (.str s)
  | arr : KeyPermList xs ys → KeyPerm (.arr xs) (.arr ys)
  | obj : KeyPermFields fs gs → KeyPerm (.obj fs) (.obj gs)
inductive KeyPermList : JsonList → JsonList → Prop
  | nil : KeyPermList .nil .nil
  | cons : KeyPerm x y → KeyPermList xs ys → KeyPermList (.cons x xs) (.cons y ys)
inductive KeyPermFields : JsonFields → JsonFields → Prop
  | nil : KeyPermFields .nil .nil
  | cons (k : String) : KeyPerm v w → KeyPermFields fs gs →
      KeyPermFields (.cons k v fs) (.cons k w gs)
  | swap (k₁ k₂ : String) (v₁ v₂ : Json) (fs : JsonFields) :
      KeyPermFields (.cons k₁ v₁ (.cons k₂ v₂ fs)) (.cons k₂ v₂ (.cons k₁ v₁ fs))
  | trans : KeyPermFields fs gs → KeyPermFields gs hs → KeyPermFields fs hs
end

theorem dumpFields_perm_of_keyPermFields (fs gs : JsonFields)
    (h : KeyPermFields fs gs) : (dumpFields fs).Perm (dumpFields gs) := by
  refine @KeyPermFields.rec
    (fun j j' _ => dumpJson j = dumpJson j')
    (fun xs ys _ => dumpList xs = dumpList ys)
    (fun fs gs _ => (dumpFields fs).Perm (dumpFields gs))
    rfl (fun b => rfl) (fun n => rfl) (fun s => rfl)
    ?_ ?_ ?_ ?_ ?_ ?_ ?_ ?_ fs gs h
  · intro xs ys _ ih
    simp [dumpJson, ih]
  · intro fs gs _ ih
    simp only [dumpJson]
    rw [sortPairs_eq_of_perm _ _ ih]
  · rfl
  · intro x y xs ys _ _ ih1 ih2
    simp [dumpList, ih1, ih2]
  · exact List.Perm.nil
  · intro k v w fs gs _ _ ih1 ih2
    simp only [dumpFields, ih1]
    exact ih2.cons _
  · intro k₁ k₂ v₁ v₂ fs
    simp only [dumpFields]
    exact List.Perm.swap _ _ _
  · intro fs gs hs _ _ ih1 ih2
    exact ih1.trans ih2

theorem dumpJson_obj_eq_of_keyPermFields (fs gs : JsonFields)
    (h : KeyPermFields fs gs) : dumpJson (.obj fs) = dumpJson (.obj gs) := by
  simp only [dumpJson]
  rw [sortPairs_eq_of_perm _ _ (dumpFields_perm_of_keyPermFields fs gs h)]

theorem keyPerm_refl (j : Json) : KeyPerm j j := by
  refine @Json.rec (fun j => KeyPerm j j) (fun xs => KeyPermList xs xs)
    (fun fs => KeyPermFields fs fs)
    KeyPerm.null (fun b => KeyPerm.bool b) (fun n => KeyPerm.num n)
    (fun s => KeyPerm.str s)
    (fun _ ih => KeyPerm.arr ih) (fun _ ih => KeyPerm.obj ih)
    KeyPermList.nil (fun _ _ ih ihs => KeyPermList.cons ih ihs)
    KeyPermFields.nil (fun k _ _ ihv ihfs => KeyPermFields.cons k ihv ihfs)
    j

/-! ## SHA-256 (`hashlib.sha256(...).hexdigest()`), over `Nat` mod 2³² -/

/-- Modulus 2³². -/
def M32 : Nat := 4294967296

/-- Right rotation of a 32-bit word. -/
def rotr32 (x n : Nat) : Nat := ((x >>> n) ||| (x <<< (32 - n))) % M32

def bsig0 (x : Nat) : Nat := (rotr32 x 2) ^^^ (rotr32 x 13) ^^^ (rotr32 x 22)
def bsig1 (x : Nat) : Nat := (rotr32 x 6) ^^^ (rotr32 x 11) ^^^ (rotr32 x 25)
def ssig0 (x : Nat) : Nat := (rotr32 x 7) ^^^ (rotr32 x 18) ^^^ (x >>> 3)
def ssig1 (x : Nat) : Nat := (rotr32 x 17) ^^^ (rotr32 x 19) ^^^ (x >>> 10)

def chF (x y z : Nat) : Nat := (x &&& y) ^^^ ((x ^^^ (M32 - 1)) &&& z)
def majF (x y z : Nat) : Nat := (x &&& y) ^^^ (x &&& z) ^^^ (y &&& z)

/-- Round constants (FIPS 180-4, written in decimal). -/
def K256 : List Nat :=
  [1116352408, 1899447441, 3049323471, 3921009573, 961987163, 1508970993,
   2453635748, 2870763221, 3624381080, 310598401, 607225278, 1426881987,
   1925078388, 2162078206, 2614888103, 3248222580, 3835390401, 4022224774,
   264347078, 604807628, 770255983, 1249150122, 1555081692, 1996064986,
   2554220882, 2821834349, 2952996808, 3210313671, 3336571891, 3584528711,
   113926993, 338241895, 666307205, 773529912, 1294757372, 1396182291,
   1695183700, 1986661051, 2177026350, 2456956037, 2730485921, 2820302411,
   3259730800, 3345764771, 3516065817, 3600352804, 4094571909, 275423344,
   430227734, 506948616, 659060556, 883997877, 958139571, 1322822218,
   1537002063, 1747873779, 1955562222, 2024104815, 2227730452, 2361852424,
   2428436474, 2756734187, 3204031479, 3329325298]

/-- Initial hash state (FIPS 180-4, written in decimal). -/
def H256 : List Nat :=
  [1779033703, 3144134277, 1013904242, 2773480762,
   1359893119, 2600822924, 528734635, 1541459225]

/-- Group bytes into 32-bit big-endian words. -/
def bytesToWords : List Nat → List Nat
  | b0 :: b1 :: b2 :: b3 :: rest =>
      (b0 * 16777216 + b1 * 65536 + b2 * 256 + b3) :: bytesToWords rest
  | _ => []

/-- SHA-256 message padding: `0x80`, zeros, 64-bit big-endian bit length. -/
def sha256pad (msg : List Nat) : List Nat :=
  let len := msg.length
  let bits := len * 8
  let zeros := (64 - ((len + 9) % 64)) % 64
  msg ++ (128 :: List.replicate zeros 0) ++
    [(bits >>> 56) % 256, (bits >>> 48) % 256, (bits >>> 40) % 256,
     (bits >>> 32) % 256, (bits >>> 24) % 256, (bits >>> 16) % 256,
     (bits >>> 8) % 256, bits % 256]

/-- Extend a 16-word window by `n` schedule words. -/
def extendSchedule : Nat → List Nat → List Nat
  | 0, _ => []
  | n + 1, w =>
    match w with
    | w0 :: w1 :: w2 :: w3 :: w4 :: w5 :: w6 :: w7 :: w8 :: w9 :: w10 :: w11 ::
        w12 :: w13 :: w14 :: w15 :: _ =>
        let nw := (w0 + ssig0 w1 + w9 + ssig1 w14) % M32
        nw :: extendSchedule n
          [w1, w2, w3, w4, w5, w6, w7, w8, w9, w10, w11, w12, w13, w14, w15, nw]
    | _ => []

/-- Full 64-word message schedule of one block. -/
def schedule (block : List Nat) : List Nat := block ++ extendSchedule 48 block

/-- One compression round; the state is `[a,b,c,d,e,f,g,h]`. -/
def compressRound (st : List Nat) (k w : Nat) : List Nat :=
  match st with
  | [a, b, c, d, e, f, g, h] =>
      let t1 := (h + bsig1 e + chF e f g + k + w) % M32
      let t2 := (bsig0 a + majF a b c) % M32
      [(t1 + t2) % M32, a, b, c, (d + t1) % M32, e, f, g]
  | _ => st

/-- Compression of one 512-bit block. -/
def compressBlock (h : List Nat) (block : List Nat) : List Nat :=
  let st := List.foldl (fun st (kw : Nat × Nat) => compressRound st kw.1 kw.2)
    h (K256.zip (schedule block))
  List.zipWith (fun a b => (a + b) % M32) h st

/-- SHA-256 digest of a byte list, as eight 32-bit words. -/
def sha256words (msg : List Nat) : List Nat :=
  List.foldl (fun h b => compressBlock h (bytesToWords b)) H256
    ((sha256pad msg).toChunks 64)

/-- Hexadecimal rendering of one 32-bit word. -/
def word2hex (w : Nat) : List Char :=
  [hexDigit ((w >>> 28) % 16), hexDigit ((w >>> 24) % 16),
   hexDigit ((w >>> 20) % 16), hexDigit ((w >>> 16) % 16),
   hexDigit ((w >>> 12) % 16), hexDigit ((w >>> 8) % 16),
   hexDigit ((w >>> 4) % 16), hexDigit (w % 16)]

/-- SHA-256 hex digest, as `hashlib.sha256(bytes).hexdigest()`. -/
def sha256hex (msg : List Nat) : String := ⟨(sha256words msg).flatMap word2hex⟩

/-- UTF-8 encoding of a string (`str.encode('utf-8')`), as byte values. -/
def utf8Encode (s : String) : List Nat :=
  s.data.flatMap (fun c =>
    let n := c.toNat
    if n < 128 then [n]
    else if n < 2048 then [192 + n / 64, 128 + n % 64]
    else if n < 65536 then [224 + n / 4096, 128 + (n / 64) % 64, 128 + n % 64]
    else [240 + n / 262144, 128 + (n / 4096) % 64, 128 + (n / 64) % 64, 128 + n % 64])

/-- Known test vector: SHA-256 of "abc". -/
example : sha256hex (utf8Encode "abc") =
    "ba7816bf8f01cfea414140de5dae2223b00361a396177a9cb410ff61f20015ad" := by decide

/-! ## Canonical payload hash (`main.compute_payload_hash`) -/

/-- Conversion of a list of strings to a JSON array of strings. -/
def tagsJson : List String → JsonList
  | [] => .nil
  | t :: ts => .cons (.str t) (tagsJson ts)

/-- Canonical payload document built by `compute_payload_hash`: the dict
passed to the outer `json.dumps(..., sort_keys=True, separators=(',', ':'))`
with both tag lists sorted (`sorted(tags) if tags else []` equals sorting in
both cases).  The telemetry dict is serialized, parsed back and embedded,
which is the identity on the document. -/
def payloadJson (battle_id session_id result : String)
    (left_tags right_tags : List String) (telemetry : JsonFields) : Json :=
  .obj (.cons "battle_id" (.str battle_id)
    (.cons "session_id" (.str session_id)
      (.cons "result" (.str result)
        (.cons "left_tags" (.arr (tagsJson (pySorted left_tags)))
          (.cons "right_tags" (.arr (tagsJson (pySorted right_tags)))
            (.cons "telemetry" (.obj telemetry) .nil))))))

/-- Embeds `compute_payload_hash` of `main.py`: SHA-256 hex digest of the
UTF-8 canonical serialization of the payload document. -/
def compute_payload_hash (battle_id session_id result : String)
    (left_tags right_tags : List String) (telemetry : JsonFields) : String :=
  sha256hex (utf8Encode (dumpJson
    (payloadJson battle_id session_id result left_tags right_tags telemetry)))

set_option maxRecDepth 100000 in
/-- Fidelity check against CPython: canonical string of a sample payload. -/
example : dumpJson (payloadJson "b" "s" "LEFT" ["fun", "fun"] [] .nil) =
    "\x7b\"battle_id\":\"b\",\"left_tags\":[\"fun\",\"fun\"],\"result\":\"LEFT\",\"right_tags\":[],\"session_id\":\"s\",\"telemetry\":\x7b\x7d\x7d" := by
  decide

set_option maxRecDepth 100000 in
/-- Fidelity check against CPython: `hashlib.sha256` digest of that string. -/
example : compute_payload_hash "b" "s" "LEFT" ["fun", "fun"] [] .nil =
    "ea3f312681e301a27587f290b74e0c9439019262c608d69d1539f372cc4aa6ec" := by
  decide

/-! ### Claim C1 -/

set_option maxRecDepth 100000 in
/-- Claim C1 (counterexample): duplicating an already-present tag changes the
hash, because `compute_payload_hash` sorts but does not deduplicate tags. -/
theorem duplicate_tag_changes_hash :
    compute_payload_hash "b" "s" "LEFT" ["fun", "fun"] [] .nil ≠
    compute_payload_hash "b" "s" "LEFT" ["fun"] [] .nil := by
  decide

/-- Claim C1 (amended): for two vote payloads on the same battle and session
with the same result, whose tag lists are equal up to reordering (duplicates
preserved) and whose telemetry objects are equal up to key ordering,
`compute_payload_hash` returns the same SHA-256 hash. -/
theorem compute_payload_hash_canonical (battle_id session_id result : String)
    (lt lt' rt rt' : List String) (tel tel' : JsonFields)
    (hl : lt.Perm lt') (hr : rt.Perm rt') (ht : KeyPermFields tel tel') :
    compute_payload_hash battle_id session_id result lt rt tel =
    compute_payload_hash battle_id session_id result lt' rt' tel' := by
  unfold compute_payload_hash payloadJson
  rw [pySorted_eq_of_perm _ _ hl, pySorted_eq_of_perm _ _ hr]
  apply congrArg sha256hex
  apply congrArg utf8Encode
  exact dumpJson_obj_eq_of_keyPermFields _ _
    (KeyPermFields.cons _ (keyPerm_refl _)
      (KeyPermFields.cons _ (keyPerm_refl _)
        (KeyPermFields.cons _ (keyPerm_refl _)
          (KeyPermFields.cons _ (keyPerm_refl _)
            (KeyPermFields.cons _ (keyPerm_refl _)
              (KeyPermFields.cons _ (KeyPerm.obj ht) KeyPermFields.nil))))))

set_option maxRecDepth 100000 in
/-- Claim C1 witness: the amended theorem applied at a concrete permuted
payload. -/
theorem compute_payload_hash_canonical_witness :
    (List.Perm ["fun", "creative"] ["creative", "fun"]) ∧
    (List.Perm ["boring"] ["boring"]) ∧
    KeyPermFields (.cons "a" (.num 1) (.cons "b" .null .nil))
      (.cons "b" .null (.cons "a" (.num 1) .nil)) ∧
    compute_payload_hash "btl" "sid" "TIE" ["fun", "creative"] ["boring"]
      (.cons "a" (.num 1) (.cons "b" .null .nil)) =
    compute_payload_hash "btl" "sid" "TIE" ["creative", "fun"] ["boring"]
      (.cons "b" .null (.cons "a" (.num 1) .nil)) := by
  refine ⟨by decide, by decide, KeyPermFields.swap "a" "b" (.num 1) .null .nil, ?_⟩
  exact compute_payload_hash_canonical "btl" "sid" "TIE" _ _ _ _ _ _
    (by decide) (by decide) (KeyPermFields.swap "a" "b" (.num 1) .null .nil)

/-! ## Glicko-2 rating engine (`glicko2.py`), over `ℝ` -/

namespace glicko2

noncomputable section

def GLICKO2_SCALE : ℝ := 173.7178
def TAU : ℝ := 0.5
def EPSILON : ℝ := 0.000001
def DEFAULT_RATING : ℝ := 1000.0
def DEFAULT_RD : ℝ := 350.0
def DEFAULT_VOLATILITY : ℝ := 0.06
def MIN_RD : ℝ := 30.0
def MAX_RD : ℝ := 350.0
def MIN_RATING : ℝ := 100.0
def MAX_RATING : ℝ := 3000.0

/-- Embeds the dataclass `GlickoRating` (display scale). -/
structure GlickoRating where
  rating : ℝ
  rd : ℝ
  volatility : ℝ

/-- Embeds `GlickoRating.to_glicko2_scale`. -/
def GlickoRating.to_glicko2_scale (r : GlickoRating) : ℝ × ℝ :=
  ((r.rating - DEFAULT_RATING) / GLICKO2_SCALE, r.rd / GLICKO2_SCALE)

/-- Embeds `GlickoRating.from_glicko2_scale`; the only place where rating and
RD are clamped. -/
def GlickoRating.from_glicko2_scale (mu phi sigma : ℝ) : GlickoRating :=
  { rating := max MIN_RATING (min MAX_RATING (mu * GLICKO2_SCALE + DEFAULT_RATING)),
    rd := max MIN_RD (min MAX_RD (phi * GLICKO2_SCALE)),
    volatility := sigma }

/-- Embeds `g`. -/
def g (phi : ℝ) : ℝ :=
  1 / Real.sqrt (1 + 3 * phi * phi / (Real.pi * Real.pi))

/-- Embeds `E`. -/
def E (mu mu_j phi_j : ℝ) : ℝ :=
  1 / (1 + Real.exp (-(g phi_j) * (mu - mu_j)))

/-- Embeds `compute_variance`. -/
def compute_variance (mu opponent_mu opponent_phi : ℝ) : ℝ :=
  1 / (g opponent_phi * g opponent_phi * E mu opponent_mu opponent_phi *
    (1 - E mu opponent_mu opponent_phi))

/-- Embeds `compute_delta`. -/
def compute_delta (mu opponent_mu opponent_phi score : ℝ) : ℝ :=
  compute_variance mu opponent_mu opponent_phi * g opponent_phi *
    (score - E mu opponent_mu opponent_phi)

/-- Embeds the local function `f` of `compute_new_volatility` (`a` is
`log(sigma²)`, `phi_sq` is `phi²`). -/
def volF (a phi_sq v delta : ℝ) (x : ℝ) : ℝ :=
  Real.exp x * (delta * delta - phi_sq - v - Real.exp x) /
    (2 * (phi_sq + v + Real.exp x) ^ 2) - (x - a) / (TAU * TAU)

open Classical in
/-- Models the bracket search `k = 1; while f(a - k*TAU) < 0: k += 1` of
`compute_new_volatility`: the least `k ≥ 1` with `0 ≤ f(a - k·TAU)`.  If no
such `k` exists the Python loop diverges; the model returns 0 there (no
claim depends on that case). -/
def bracketK (f : ℝ → ℝ) (a : ℝ) : ℕ :=
  if h : ∃ k : ℕ, 0 ≤ f (a - ((k : ℝ) + 1) * TAU) then Nat.find h + 1 else 0

open Classical in
/-- Embeds the Illinois loop of `compute_new_volatility` with explicit fuel
(the source caps iterations at 100); returns the final `A`. -/
def illinois (f : ℝ → ℝ) : ℕ → ℝ → ℝ → ℝ → ℝ → ℝ
  | 0, A, _, _, _ => A
  | n + 1, A, B, fA, fB =>
    if |B - A| > EPSILON then
      let C := A + (A - B) * fA / (fB - fA)
      let fC := f C
      if fC * fB ≤ 0 then illinois f n B C fB fC
      else illinois f n A C (fA / 2) fC
    else A

open Classical in
/-- Embeds `compute_new_volatility` (Step 5 of Glicko-2). -/
def compute_new_volatility (sigma phi v delta : ℝ) : ℝ :=
  let a := Real.log (sigma * sigma)
  let phi_sq := phi * phi
  let f := volF a phi_sq v delta
  let B := if delta * delta > phi_sq + v then Real.log (delta * delta - phi_sq - v)
           else a - (bracketK f a : ℝ) * TAU
  Real.exp (illinois f 100 a B (f a) (f B) / 2)

/-- Unclamped `mu` of the player (`player.to_glicko2_scale()`). -/
def muOf (p : GlickoRating) : ℝ := p.to_glicko2_scale.1

/-- Unclamped `phi` of the player. -/
def phiOf (p : GlickoRating) : ℝ := p.to_glicko2_scale.2

/-- Step 3 of `update_rating_after_game`: variance `v`. -/
def vOf (player opponent : GlickoRating) : ℝ :=
  compute_variance (muOf player) (muOf opponent) (phiOf opponent)

/-- Step 4: delta. -/
def deltaOf (player opponent : GlickoRating) (score : ℝ) : ℝ :=
  compute_delta (muOf player) (muOf opponent) (phiOf opponent) score

/-- Step 5: `sigma'`. -/
def sigmaNewOf (player opponent : GlickoRating) (score : ℝ) : ℝ :=
  compute_new_volatility player.volatility (phiOf player) (vOf player opponent)
    (deltaOf player opponent score)

/-- Step 6: `phi* = sqrt(phi·phi + sigma'·sigma')`. -/
def phiStarOf (player opponent : GlickoRating) (score : ℝ) : ℝ :=
  Real.sqrt (phiOf player * phiOf player +
    sigmaNewOf player opponent score * sigmaNewOf player opponent score)

/-- Step 7: `phi'`. -/
def phiNewOf (player opponent : GlickoRating) (score : ℝ) : ℝ :=
  1 / Real.sqrt (1 / (phiStarOf player opponent score * phiStarOf player opponent score)
    + 1 / vOf player opponent)

/-- Step 7: `mu'`. -/
def muNewOf (player opponent : GlickoRating) (score : ℝ) : ℝ :=
  muOf player + phiNewOf player opponent score * phiNewOf player opponent score *
    g (phiOf opponent) * (score - E (muOf player) (muOf opponent) (phiOf opponent))

/-- Embeds `update_rating_after_game`: steps 1-7 on the unclamped scale, then
a single conversion (and clamp) back to display scale. -/
def update_rating_after_game (player opponent : GlickoRating) (score : ℝ) :
    GlickoRating :=
  GlickoRating.from_glicko2_scale (muNewOf player opponent score)
    (phiNewOf player opponent score) (sigmaNewOf player opponent score)

/-- Embeds `update_ratings_glicko2`.  `none` models the `ValueError` raised
on a result outside LEFT/RIGHT/TIE/SKIP. -/
def update_ratings_glicko2 (left_rating left_rd left_volatility
    right_rating right_rd right_volatility : ℝ) (result : String) :
    Option (GlickoRating × GlickoRating) :=
  let left : GlickoRating := ⟨left_rating, left_rd, left_volatility⟩
  let right : GlickoRating := ⟨right_rating, right_rd, right_volatility⟩
  if result = "SKIP" then some (left, right)
  else if result = "LEFT" then
    some (update_rating_after_game left right 1,
          update_rating_after_game right left 0)
  else if result = "RIGHT" then
    some (update_rating_after_game left right 0,
          update_rating_after_game right left 1)
  else if result = "TIE" then
    some (update_rating_after_game left right 0.5,
          update_rating_after_game right left 0.5)
  else none

/-- Embeds `compute_expected_outcome`. -/
def compute_expected_outcome (rating1 rd1 rating2 rd2 : ℝ) : ℝ :=
  E ((rating1 - DEFAULT_RATING) / GLICKO2_SCALE)
    ((rating2 - DEFAULT_RATING) / GLICKO2_SCALE) (rd2 / GLICKO2_SCALE)

/-- Embeds `information_gain`. -/
def information_gain (rd1 rd2 : ℝ) : ℝ :=
  Real.sqrt ((rd1 - MIN_RD) / (MAX_RD - MIN_RD) * ((rd2 - MIN_RD) / (MAX_RD - MIN_RD)))

/-- Embeds `match_quality`. -/
def match_quality (rating1 rd1 rating2 rd2 : ℝ) : ℝ :=
  let rating_diff := |rating1 - rating2|
  let combined_rd := Real.sqrt (rd1 * rd1 + rd2 * rd2)
  let expected := compute_expected_outcome rating1 rd1 rating2 rd2
  let outcome_uncertainty := 1 - |2 * expected - 1|
  let rating_penalty := Real.exp (-rating_diff * rating_diff / (2 * combined_rd * combined_rd))
  outcome_uncertainty * rating_penalty

theorem from_glicko2_scale_bounds (mu phi sigma : ℝ) :
    MIN_RATING ≤ (GlickoRating.from_glicko2_scale mu phi sigma).rating ∧
    (GlickoRating.from_glicko2_scale mu phi sigma).rating ≤ MAX_RATING ∧
    MIN_RD ≤ (GlickoRating.from_glicko2_scale mu phi sigma).rd ∧
    (GlickoRating.from_glicko2_scale mu phi sigma).rd ≤ MAX_RD := by
  refine ⟨le_max_left _ _, ?_, le_max_left _ _, ?_⟩
  · exact max_le (by norm_num [MIN_RATING, MAX_RATING]) (min_le_left _ _)
  · exact max_le (by norm_num [MIN_RD, MAX_RD]) (min_le_left _ _)

theorem update_rating_after_game_bounds (p o : GlickoRating) (s : ℝ) :
    MIN_RATING ≤ (update_rating_after_game p o s).rating ∧
    (update_rating_after_game p o s).rating ≤ MAX_RATING ∧
    MIN_RD ≤ (update_rating_after_game p o s).rd ∧
    (update_rating_after_game p o s).rd ≤ MAX_RD :=
  from_glicko2_scale_bounds _ _ _

end

end glicko2

/-! ### Claims C6 and C7 -/

/-- Claim C6: for every input rating triple and every result in LEFT, RIGHT,
TIE, the rating and rd returned by the Glicko-2 update satisfy
`MIN_RATING = 100 ≤ rating ≤ MAX_RATING = 3000` and
`MIN_RD = 30 ≤ rd ≤ MAX_RD = 350`; and the clamp is applied exactly once,
after the full update: `update_rating_after_game` is the single conversion
`from_glicko2_scale` applied to the unclamped `mu'`, `phi'`, `sigma'`, which
are themselves computed from the unclamped scale values. -/
theorem glicko2_bounds_single_clamp (lr lrd lv rr rrd rv : ℝ) (result : String)
    (h : result = "LEFT" ∨ result = "RIGHT" ∨ result = "TIE") :
    (∃ nl nr, glicko2.update_ratings_glicko2 lr lrd lv rr rrd rv result = some (nl, nr) ∧
      (glicko2.MIN_RATING ≤ nl.rating ∧ nl.rating ≤ glicko2.MAX_RATING ∧
        glicko2.MIN_RD ≤ nl.rd ∧ nl.rd ≤ glicko2.MAX_RD) ∧
      (glicko2.MIN_RATING ≤ nr.rating ∧ nr.rating ≤ glicko2.MAX_RATING ∧
        glicko2.MIN_RD ≤ nr.rd ∧ nr.rd ≤ glicko2.MAX_RD)) ∧
    (glicko2.MIN_RATING = 100 ∧ glicko2.MAX_RATING = 3000 ∧
      glicko2.MIN_RD = 30 ∧ glicko2.MAX_RD = 350) ∧
    (∀ p o s, glicko2.update_rating_after_game p o s =
      glicko2.GlickoRating.from_glicko2_scale (glicko2.muNewOf p o s)
        (glicko2.phiNewOf p o s) (glicko2.sigmaNewOf p o s)) := by
  refine ⟨?_, ⟨by norm_num [glicko2.MIN_RATING], by norm_num [glicko2.MAX_RATING],
    by norm_num [glicko2.MIN_RD], by norm_num [glicko2.MAX_RD]⟩,
    fun p o s => rfl⟩
  rcases h with rfl | rfl | rfl
  · refine ⟨_, _, rfl, ?_, ?_⟩ <;>
      exact glicko2.update_rating_after_game_bounds _ _ _
  · refine ⟨_, _, rfl, ?_, ?_⟩ <;>
      exact glicko2.update_rating_after_game_bounds _ _ _
  · refine ⟨_, _, rfl, ?_, ?_⟩ <;>
      exact glicko2.update_rating_after_game_bounds _ _ _

/-- Claim C6 witness: the theorem applied at the default triples and LEFT. -/
theorem glicko2_bounds_single_clamp_witness :
    ("LEFT" = "LEFT" ∨ "LEFT" = "RIGHT" ∨ "LEFT" = "TIE") ∧
    (∃ nl nr, glicko2.update_ratings_glicko2 1000 350 0.06 1000 350 0.06 "LEFT" =
        some (nl, nr) ∧
      (glicko2.MIN_RATING ≤ nl.rating ∧ nl.rating ≤ glicko2.MAX_RATING ∧
        glicko2.MIN_RD ≤ nl.rd ∧ nl.rd ≤ glicko2.MAX_RD) ∧
      (glicko2.MIN_RATING ≤ nr.rating ∧ nr.rating ≤ glicko2.MAX_RATING ∧
        glicko2.MIN_RD ≤ nr.rd ∧ nr.rd ≤ glicko2.MAX_RD)) :=
  ⟨Or.inl rfl,
    (glicko2_bounds_single_clamp 1000 350 0.06 1000 350 0.06 "LEFT" (Or.inl rfl)).1⟩

/-- Claim C7: for a non-SKIP result the pairwise update returns exactly
`update_rating_after_game` of each side against the other side's pre-match
snapshot (so neither update influences the other), with scores 1, 0.5, 0 for
win, tie, loss; and the per-side update satisfies the Glicko-2 step
equations `phi* = sqrt(phi² + sigma'²)`, `phi' = 1/sqrt(1/phi*² + 1/v)` and
`mu' = mu + phi'²·g(phi_j)·(s − E)`. -/
theorem glicko2_pairwise_from_snapshots (lr lrd lv rr rrd rv : ℝ) (result : String)
    (h : result = "LEFT" ∨ result = "RIGHT" ∨ result = "TIE") :
    (glicko2.update_ratings_glicko2 lr lrd lv rr rrd rv result =
      some (glicko2.update_rating_after_game ⟨lr, lrd, lv⟩ ⟨rr, rrd, rv⟩
              (if result = "LEFT" then 1 else if result = "TIE" then 0.5 else 0),
            glicko2.update_rating_after_game ⟨rr, rrd, rv⟩ ⟨lr, lrd, lv⟩
              (if result = "RIGHT" then 1 else if result = "TIE" then 0.5 else 0))) ∧
    (∀ p o s, glicko2.phiStarOf p o s =
      Real.sqrt (glicko2.phiOf p ^ 2 + glicko2.sigmaNewOf p o s ^ 2)) ∧
    (∀ p o s, glicko2.phiNewOf p o s =
      1 / Real.sqrt (1 / glicko2.phiStarOf p o s ^ 2 + 1 / glicko2.vOf p o)) ∧
    (∀ p o s, glicko2.muNewOf p o s =
      glicko2.muOf p + glicko2.phiNewOf p o s ^ 2 * glicko2.g (glicko2.phiOf o) *
        (s - glicko2.E (glicko2.muOf p) (glicko2.muOf o) (glicko2.phiOf o))) := by
  refine ⟨?_, fun p o s => ?_, fun p o s => ?_, fun p o s => ?_⟩
  · rcases h with rfl | rfl | rfl <;> simp [glicko2.update_ratings_glicko2]
  · unfold glicko2.phiStarOf
    congr 1
    ring
  · unfold glicko2.phiNewOf
    congr 2
    ring
  · unfold glicko2.muNewOf
    ring

/-- Claim C7 witness: the theorem applied at the default triples and TIE. -/
theorem glicko2_pairwise_from_snapshots_witness :
    ("TIE" = "LEFT" ∨ "TIE" = "RIGHT" ∨ "TIE" = "TIE") ∧
    glicko2.update_ratings_glicko2 1000 350 0.06 900 200 0.06 "TIE" =
      some (glicko2.update_rating_after_game ⟨1000, 350, 0.06⟩ ⟨900, 200, 0.06⟩
              (if ("TIE" : String) = "LEFT" then 1 else if ("TIE" : String) = "TIE" then 0.5 else 0),
            glicko2.update_rating_after_game ⟨900, 200, 0.06⟩ ⟨1000, 350, 0.06⟩
              (if ("TIE" : String) = "RIGHT" then 1 else if ("TIE" : String) = "TIE" then 0.5 else 0)) :=
  ⟨Or.inr (Or.inr rfl),
    (glicko2_pairwise_from_snapshots 1000 350 0.06 900 200 0.06 "TIE"
      (Or.inr (Or.inr rfl))).1⟩

/-! ## Association-list model of SQLite tables -/

/-- Lookup of the first row whose key matches; models `SELECT ... WHERE key = ?`
on a uniquely-indexed column. -/
def findBy {α κ : Type} [DecidableEq κ] (key : α → κ) (k : κ) : List α → Option α
  | [] => none
  | a :: as => if key a = k then some a else findBy key k as

/-- Keyed row update; models `UPDATE ... SET ... WHERE key = ?`. -/
def updateBy {α κ : Type} [DecidableEq κ] (key : α → κ) (k : κ) (f : α → α)
    (l : List α) : List α :=
  l.map fun a => if key a = k then f a else a

theorem findBy_eq_some_key {α κ : Type} [DecidableEq κ] (key : α → κ) (k : κ)
    (l : List α) (a : α) (h : findBy key k l = some a) : key a = k := by
  induction l with
  | nil => simp [findBy] at h
  | cons b l ih =>
    by_cases hb : key b = k
    · simp [findBy, hb] at h
      rw [← h]
      exact hb
    · simp [findBy, hb] at h
      exact ih h

theorem findBy_updateBy_self {α κ : Type} [DecidableEq κ] (key : α → κ) (k : κ)
    (f : α → α) (l : List α) (hf : ∀ a, key (f a) = key a) :
    findBy key k (updateBy key k f l) = (findBy key k l).map f := by
  induction l with
  | nil => simp [findBy, updateBy]
  | cons b l ih =>
    by_cases hb : key b = k
    · simp [findBy, updateBy, hb, hf]
    · simp only [updateBy, List.map_cons, if_neg hb]
      simp only [findBy, if_neg hb]
      exact ih

theorem findBy_updateBy_ne {α κ : Type} [DecidableEq κ] (key : α → κ) (k k' : κ)
    (f : α → α) (l : List α) (hf : ∀ a, key (f a) = key a) (hne : k' ≠ k) :
    findBy key k (updateBy key k' f l) = findBy key k l := by
  induction l with
  | nil => simp [findBy, updateBy]
  | cons b l ih =>
    by_cases hb : key b = k'
    · have : key (f b) ≠ k := by rw [hf, hb]; exact hne
      have hbk : key b ≠ k := by rw [hb]; exact hne
      simp only [updateBy, List.map_cons, if_pos hb]
      simp only [findBy, if_neg this, if_neg hbk]
      exact ih
    · simp only [updateBy, List.map_cons, if_neg hb]
      simp only [findBy]
      by_cases hbk : key b = k
      · simp [hbk]
      · simp only [if_neg hbk]
        exact ih

theorem findBy_append {α κ : Type} [DecidableEq κ] (key : α → κ) (k : κ)
    (l₁ l₂ : List α) :
    findBy key k (l₁ ++ l₂) =
      match findBy key k l₁ with
      | some a => some a
      | none => findBy key k l₂ := by
  induction l₁ with
  | nil => simp [findBy]
  | cons b l ih =>
    by_cases hb : key b = k
    · simp [findBy, hb]
    · simp only [List.cons_append, findBy, if_neg hb]
      exact ih

/-! ## Matchmaking (`matchmaking.py`) -/

namespace matchmaking

/-- Embeds the dataclass `GeneratorStats`. -/
structure GeneratorStats where
  generator_id : String
  rating : ℝ
  rd : ℝ
  volatility : ℝ
  games_played : ℕ
  is_active : Bool

/-- Configuration values read at module import from `load_config()`
(`agis_min_games_for_significance`, `agis_rating_similarity_sigma`,
`agis_target_battles_per_pair`, `agis_quality_bias_strength`); the spec
defaults are M = 20, sigma_r = 200, T = 10, Q = 0.1.  All theorems below
hold for arbitrary values. -/
structure AgisConfig where
  min_games_for_significance : ℕ
  rating_similarity_sigma : ℝ
  target_battles_per_pair : ℕ
  quality_bias_strength : ℝ

def ALPHA : ℝ := 0.5
def BETA : ℝ := 0.3
def GAMMA : ℝ := 0.2

/-- Embeds `normalize_pair_key`. -/
def normalize_pair_key (id1 id2 : String) : String × String :=
  if sLt id1 id2 then (id1, id2) else (id2, id1)

/-- Lookup with default 0, as `pair_counts.get(pair_key, 0)`. -/
def pairCountGet (pair_counts : List ((String × String) × ℕ))
    (k : String × String) : ℕ :=
  ((findBy Prod.fst k pair_counts).map Prod.snd).getD 0

noncomputable section

open Classical

/-- Embeds `compute_generator_weight` (stage-1 AGIS weight; the
`n_generators` argument is unused, as in the source). -/
def compute_generator_weight (cfg : AgisConfig) (gen : GeneratorStats)
    (_n_generators : ℕ) : ℝ :=
  let rd_normalized := (gen.rd - glicko2.MIN_RD) / (glicko2.MAX_RD - glicko2.MIN_RD)
  let uncertainty_weight := (1 + rd_normalized) ^ 2
  let games_weight :=
    if gen.games_played < cfg.min_games_for_significance then
      3 * (1 - (gen.games_played : ℝ) / (cfg.min_games_for_significance : ℝ)) + 1
    else 0.8 + cfg.quality_bias_strength * max 0 (min 1 ((gen.rating - 600) / 800))
  max 0.01 (uncertainty_weight * games_weight)

/-- Embeds `compute_pair_weight` (stage-2 AGIS weight). -/
def compute_pair_weight (cfg : AgisConfig) (gen1 gen2 : GeneratorStats)
    (pair_counts : List ((String × String) × ℕ)) : ℝ :=
  let rating_diff := |gen1.rating - gen2.rating|
  let similarity_weight :=
    Real.exp (-(rating_diff ^ 2) / (2 * cfg.rating_similarity_sigma ^ 2))
  let rd_normalized := (gen2.rd - glicko2.MIN_RD) / (glicko2.MAX_RD - glicko2.MIN_RD)
  let uncertainty_weight := 1 + rd_normalized
  let count := pairCountGet pair_counts
    (normalize_pair_key gen1.generator_id gen2.generator_id)
  let coverage_bonus :=
    if count < cfg.target_battles_per_pair then 2 * Real.exp (-(count : ℝ) / 3)
    else 0.1
  let info_gain := glicko2.information_gain gen1.rd gen2.rd
  let quality := glicko2.match_quality gen1.rating gen1.rd gen2.rating gen2.rd
  max 0.01 (ALPHA * similarity_weight + BETA * uncertainty_weight +
    GAMMA * (info_gain + quality) + coverage_bonus)

/-- Models index selection of `random.choices(pop, weights, k=1)`: with `x`
uniform in `[0, total weight)`, the chosen index is the bisection point of
the cumulative weights at `x`. -/
def choiceIndex : List ℝ → ℝ → ℕ
  | [], _ => 0
  | w :: ws, x => if x < w then 0 else choiceIndex ws (x - w) + 1

/-- Step 1 of `select_generators_agis`: the stage-1 weights. -/
def stage1_weights (cfg : AgisConfig) (generators : List GeneratorStats) :
    List ℝ :=
  generators.map (fun gen => compute_generator_weight cfg gen generators.length)

/-- Step 2 of `select_generators_agis`: normalized stage-1 probabilities
(`probs = [w / total_weight for w in weights]`). -/
def stage1_probs (cfg : AgisConfig) (generators : List GeneratorStats) :
    List ℝ :=
  (stage1_weights cfg generators).map (· / (stage1_weights cfg generators).sum)

/-- Step 3 of `select_generators_agis`: the stage-2 pair weights, zero for
the already-selected generator. -/
def stage2_weights (cfg : AgisConfig) (gen1 : GeneratorStats)
    (generators : List GeneratorStats)
    (pair_counts : List ((String × String) × ℕ)) : List ℝ :=
  generators.map (fun gen =>
    if gen.generator_id = gen1.generator_id then 0
    else compute_pair_weight cfg gen1 gen pair_counts)

/-- Step 4 of `select_generators_agis`: normalized stage-2 probabilities. -/
def stage2_probs (cfg : AgisConfig) (gen1 : GeneratorStats)
    (generators : List GeneratorStats)
    (pair_counts : List ((String × String) × ℕ)) : List ℝ :=
  (stage2_weights cfg gen1 generators pair_counts).map
    (· / (stage2_weights cfg gen1 generators pair_counts).sum)

/-- Eligible generators of the degenerate-input fallback of
`select_generators_agis`. -/
def eligible_after (generators : List GeneratorStats) (gen1 : GeneratorStats) :
    List GeneratorStats :=
  generators.filter (fun gen => gen.generator_id ≠ gen1.generator_id)

/-- Embeds `select_generators_agis`.  The injected randomness is explicit:
`r1`, `r2` are the stage-1/stage-2 sampling points of `random.choices`,
`fallback_idx` the uniform pick of the degenerate-input fallback
(`random.choice`).  `none` models the `ValueError` raised when fewer than
two eligible generators exist, and the error of the degenerate fallback on
an empty list. -/
def select_generators_agis (cfg : AgisConfig) (generators : List GeneratorStats)
    (pair_counts : List ((String × String) × ℕ)) (r1 r2 : ℝ)
    (fallback_idx : ℕ) : Option (String × String) :=
  if generators.length < 2 then none
  else
    match generators[choiceIndex (stage1_probs cfg generators) r1]? with
    | none => none
    | some gen1 =>
      if (stage2_weights cfg gen1 generators pair_counts).sum = 0 then
        match (eligible_after generators gen1)[fallback_idx %
            (eligible_after generators gen1).length]? with
        | none => none
        | some gen2 => some (gen1.generator_id, gen2.generator_id)
      else
        match generators[choiceIndex
            (stage2_probs cfg gen1 generators pair_counts) r2]? with
        | none => none
        | some gen2 => some (gen1.generator_id, gen2.generator_id)

end

/-- Embeds the row shape of the `generator_pair_stats` table. -/
structure PairStatsRow where
  gen1_id : String
  gen2_id : String
  battle_count : ℕ
  gen1_wins : ℕ
  gen2_wins : ℕ
  ties : ℕ
  skips : ℕ
  last_battle_utc : String
deriving DecidableEq

/-- Canonical key of a pair-stats row. -/
def pairKey (r : PairStatsRow) : String × String := (r.gen1_id, r.gen2_id)

/-- Models the single SQL statement `INSERT INTO generator_pair_stats ...
ON CONFLICT(gen1_id, gen2_id) DO UPDATE SET ...` of `update_pair_stats`. -/
def pairUpsert (rows : List PairStatsRow) (k1 k2 : String) (d1 d2 dt ds : ℕ)
    (now_utc : String) : List PairStatsRow :=
  match findBy pairKey (k1, k2) rows with
  | none => rows ++ [⟨k1, k2, 1, d1, d2, dt, ds, now_utc⟩]
  | some _ => updateBy pairKey (k1, k2) (fun r =>
      ⟨r.gen1_id, r.gen2_id, r.battle_count + 1, r.gen1_wins + d1,
        r.gen2_wins + d2, r.ties + dt, r.skips + ds, now_utc⟩) rows

/-- Embeds `update_pair_stats`: canonicalize the pair, translate the
presentation result into deltas on the canonical counters, and upsert. -/
def update_pair_stats (rows : List PairStatsRow)
    (gen1_id gen2_id result now_utc : String) : List PairStatsRow :=
  let left_is_gen1 := sLt gen1_id gen2_id
  let canonical_gen1 := if left_is_gen1 then gen1_id else gen2_id
  let canonical_gen2 := if left_is_gen1 then gen2_id else gen1_id
  let gen1_win_delta : ℕ :=
    if result = "LEFT" then (if left_is_gen1 then 1 else 0)
    else if result = "RIGHT" then (if left_is_gen1 then 0 else 1)
    else 0
  let gen2_win_delta : ℕ :=
    if result = "LEFT" then (if left_is_gen1 then 0 else 1)
    else if result = "RIGHT" then (if left_is_gen1 then 1 else 0)
    else 0
  let tie_delta : ℕ := if result = "TIE" then 1 else 0
  let skip_delta : ℕ := if result = "SKIP" then 1 else 0
  pairUpsert rows canonical_gen1 canonical_gen2 gen1_win_delta gen2_win_delta
    tie_delta skip_delta now_utc

theorem pairUpsert_findBy (rows : List PairStatsRow) (k1 k2 now_utc : String)
    (d1 d2 dt ds : ℕ) :
    findBy pairKey (k1, k2) (pairUpsert rows k1 k2 d1 d2 dt ds now_utc) =
      some
        (let pre := (findBy pairKey (k1, k2) rows).getD ⟨k1, k2, 0, 0, 0, 0, 0, now_utc⟩
         ⟨k1, k2, pre.battle_count + 1, pre.gen1_wins + d1, pre.gen2_wins + d2,
           pre.ties + dt, pre.skips + ds, now_utc⟩) := by
  rcases hfind : findBy pairKey (k1, k2) rows with _ | r0
  · simp only [pairUpsert, hfind]
    rw [findBy_append, hfind]
    simp [findBy, pairKey]
  · have hk := findBy_eq_some_key pairKey (k1, k2) rows r0 hfind
    simp only [pairKey, Prod.mk.injEq] at hk
    simp only [pairUpsert, hfind]
    rw [findBy_updateBy_self pairKey (k1, k2)
      (fun r => ⟨r.gen1_id, r.gen2_id, r.battle_count + 1, r.gen1_wins + d1,
        r.gen2_wins + d2, r.ties + dt, r.skips + ds, now_utc⟩) rows (fun r => rfl),
      hfind]
    simp [hk.1, hk.2]

end matchmaking

/-! ### Claim C9 -/

set_option maxRecDepth 4000 in
/-- Claim C9: pair-stats updates key the row by the lexicographically sorted
pair `(a, b)`; a LEFT result increments `a_wins` exactly when the left
generator is `a` and `b_wins` otherwise, RIGHT mirrored, TIE increments
`ties`, SKIP increments `skips`; and after the update the row satisfies
`battle_count = a_wins + b_wins + ties + skips`. -/
theorem update_pair_stats_canonical (rows : List matchmaking.PairStatsRow)
    (g1 g2 result now : String) (hne : g1 ≠ g2)
    (hres : result = "LEFT" ∨ result = "RIGHT" ∨ result = "TIE" ∨ result = "SKIP")
    (hinv : ∀ r, findBy matchmaking.pairKey (matchmaking.normalize_pair_key g1 g2)
      rows = some r → r.battle_count = r.gen1_wins + r.gen2_wins + r.ties + r.skips) :
    findBy matchmaking.pairKey (matchmaking.normalize_pair_key g1 g2)
        (matchmaking.update_pair_stats rows g1 g2 result now) =
      some
        (let a := (matchmaking.normalize_pair_key g1 g2).1
         let b := (matchmaking.normalize_pair_key g1 g2).2
         let pre := (findBy matchmaking.pairKey (matchmaking.normalize_pair_key g1 g2)
           rows).getD ⟨a, b, 0, 0, 0, 0, 0, now⟩
         { gen1_id := a, gen2_id := b,
           battle_count := pre.battle_count + 1,
           gen1_wins := pre.gen1_wins +
             (if (result = "LEFT" ∧ g1 = a) ∨ (result = "RIGHT" ∧ g1 ≠ a) then 1 else 0),
           gen2_wins := pre.gen2_wins +
             (if (result = "LEFT" ∧ g1 ≠ a) ∨ (result = "RIGHT" ∧ g1 = a) then 1 else 0),
           ties := pre.ties + (if result = "TIE" then 1 else 0),
           skips := pre.skips + (if result = "SKIP" then 1 else 0),
           last_battle_utc := now }) ∧
    (∀ r', findBy matchmaking.pairKey (matchmaking.normalize_pair_key g1 g2)
        (matchmaking.update_pair_stats rows g1 g2 result now) = some r' →
      r'.battle_count = r'.gen1_wins + r'.gen2_wins + r'.ties + r'.skips) := by
  by_cases hlt : sLt g1 g2 = true
  case pos =>
    have hnpk : matchmaking.normalize_pair_key g1 g2 = (g1, g2) := by
      simp [matchmaking.normalize_pair_key, hlt]
    rw [hnpk] at hinv ⊢
    rcases hres with rfl | rfl | rfl | rfl <;>
    · simp only [matchmaking.update_pair_stats, hlt, if_true, if_false,
        String.reduceEq, ite_true, ite_false, reduceIte]
      rw [matchmaking.pairUpsert_findBy]
      constructor
      · simp
      · intro r' hr'
        simp only [Option.some.injEq] at hr'
        rcases hfind : findBy matchmaking.pairKey (g1, g2) rows with _ | r0 <;>
          rw [hfind] at hr' <;> subst hr'
        · simp
        · have := hinv r0 hfind
          simp
          omega
  case neg =>
    rw [Bool.not_eq_true] at hlt
    have hnpk : matchmaking.normalize_pair_key g1 g2 = (g2, g1) := by
      simp [matchmaking.normalize_pair_key, hlt]
    rw [hnpk] at hinv ⊢
    rcases hres with rfl | rfl | rfl | rfl <;>
    · simp only [matchmaking.update_pair_stats, hlt, if_true, if_false,
        String.reduceEq, ite_true, ite_false, reduceIte, Bool.false_eq_true]
      rw [matchmaking.pairUpsert_findBy]
      constructor
      · simp [hne]
      · intro r' hr'
        simp only [Option.some.injEq] at hr'
        rcases hfind : findBy matchmaking.pairKey (g2, g1) rows with _ | r0 <;>
          rw [hfind] at hr' <;> subst hr'
        · simp
        · have := hinv r0 hfind
          simp
          omega

/-- Claim C9 witness: the theorem applied to an empty table with a concrete
LEFT vote. -/
theorem update_pair_stats_canonical_witness :
    (("gA" : String) ≠ "gB") ∧
    (∀ r', findBy matchmaking.pairKey (matchmaking.normalize_pair_key "gA" "gB")
        (matchmaking.update_pair_stats [] "gA" "gB" "LEFT" "t0") = some r' →
      r'.battle_count = r'.gen1_wins + r'.gen2_wins + r'.ties + r'.skips) :=
  ⟨by decide,
    (update_pair_stats_canonical [] "gA" "gB" "LEFT" "t0" (by decide)
      (Or.inl rfl) (fun r h => by simp [findBy] at h)).2⟩

/-! ### Claim C10 -/

theorem compute_generator_weight_ge (cfg : matchmaking.AgisConfig)
    (gen : matchmaking.GeneratorStats) (n : ℕ) :
    (0.01 : ℝ) ≤ matchmaking.compute_generator_weight cfg gen n := by
  simp only [matchmaking.compute_generator_weight]
  exact le_max_left _ _

theorem compute_pair_weight_ge (cfg : matchmaking.AgisConfig)
    (gen1 gen2 : matchmaking.GeneratorStats)
    (pc : List ((String × String) × ℕ)) :
    (0.01 : ℝ) ≤ matchmaking.compute_pair_weight cfg gen1 gen2 pc := by
  simp only [matchmaking.compute_pair_weight]
  exact le_max_left _ _

theorem choiceIndex_map_ne (gen1 : matchmaking.GeneratorStats)
    (w : matchmaking.GeneratorStats → ℝ) (gens : List matchmaking.GeneratorStats) :
    ∀ (s x : ℝ), 0 ≤ x → ∀ gen2 : matchmaking.GeneratorStats,
    gens[matchmaking.choiceIndex ((gens.map (fun gen =>
      if gen.generator_id = gen1.generator_id then 0 else w gen)).map (· / s))
      x]? = some gen2 →
    gen2.generator_id ≠ gen1.generator_id := by
  induction gens with
  | nil =>
    intro s x hx gen2 h
    simp at h
  | cons g gs ih =>
    intro s x hx gen2 h
    simp only [List.map_cons, matchmaking.choiceIndex] at h
    by_cases hxv : x < (if g.generator_id = gen1.generator_id then 0 else w g) / s
    · rw [if_pos hxv] at h
      simp only [List.getElem?_cons_zero, Option.some.injEq] at h
      subst h
      intro hg
      rw [if_pos hg, zero_div] at hxv
      linarith
    · rw [if_neg hxv] at h
      simp only [List.getElem?_cons_succ] at h
      have hx2 : 0 ≤ x - (if g.generator_id = gen1.generator_id then 0 else w g) / s := by
        have := le_of_not_lt hxv
        linarith
      exact ih s _ hx2 gen2 h

/-- Claim C10: every stage-1 AGIS weight is at least 0.01, so the stage-1
total weight of a non-empty generator list is strictly positive and the
probability normalization never divides by zero; and the second generator
chosen by `select_generators_agis` always differs from the first, both on
the weighted path (the same-generator weight is zero, and a zero-weight
entry is never chosen for a non-negative sampling point) and on the
zero-total fallback (which samples only among the other generators). -/
theorem agis_weight_floor_and_distinct :
    (∀ cfg gen n, (0.01 : ℝ) ≤ matchmaking.compute_generator_weight cfg gen n) ∧
    (∀ cfg (gens : List matchmaking.GeneratorStats), gens ≠ [] →
      0 < (matchmaking.stage1_weights cfg gens).sum) ∧
    (∀ cfg gens pc (r1 r2 : ℝ) fidx, 0 ≤ r2 → ∀ a b,
      matchmaking.select_generators_agis cfg gens pc r1 r2 fidx = some (a, b) →
      a ≠ b) := by
  refine ⟨compute_generator_weight_ge, ?_, ?_⟩
  · intro cfg gens hne
    cases gens with
    | nil => exact absurd rfl hne
    | cons gen gens =>
      simp only [matchmaking.stage1_weights, List.map_cons, List.sum_cons]
      have h1 := compute_generator_weight_ge cfg gen (gen :: gens).length
      have h2 : (0 : ℝ) ≤ (gens.map (fun g =>
          matchmaking.compute_generator_weight cfg g (gen :: gens).length)).sum := by
        apply List.sum_nonneg
        intro x hx
        simp only [List.mem_map] at hx
        obtain ⟨y, _, rfl⟩ := hx
        have := compute_generator_weight_ge cfg y (gen :: gens).length
        linarith
      linarith
  · intro cfg gens pc r1 r2 fidx hr2 a b h
    unfold matchmaking.select_generators_agis at h
    split at h
    · exact absurd h (by simp)
    · split at h
      · exact absurd h (by simp)
      · rename_i gen1 h1
        split at h
        · split at h
          · exact absurd h (by simp)
          · rename_i gen2 h2
            simp only [Option.some.injEq, Prod.mk.injEq] at h
            obtain ⟨rfl, rfl⟩ := h
            obtain ⟨hidx, hval⟩ := List.getElem?_eq_some_iff.mp h2
            have hmem : gen2 ∈ matchmaking.eligible_after gens gen1 :=
              hval ▸ List.getElem_mem hidx
            have hprop := (List.mem_filter.mp hmem).2
            simp only [decide_eq_true_eq] at hprop
            exact fun hEq => hprop hEq.symm
        · split at h
          · exact absurd h (by simp)
          · rename_i h0 gen2 h2
            simp only [Option.some.injEq, Prod.mk.injEq] at h
            obtain ⟨rfl, rfl⟩ := h
            simp only [matchmaking.stage2_probs, matchmaking.stage2_weights] at h2
            exact fun hEq =>
              choiceIndex_map_ne gen1 _ gens _ r2 hr2 gen2 h2 hEq.symm

/-- Claim C10 witness: the theorem applied at a concrete two-generator
state with sampling point 0. -/
theorem agis_weight_floor_and_distinct_witness :
    ((0.01 : ℝ) ≤ matchmaking.compute_generator_weight ⟨20, 200, 10, 0.1⟩
      ⟨"g1", 1000, 350, 0.06, 0, true⟩ 2) ∧
    (0 < (matchmaking.stage1_weights ⟨20, 200, 10, 0.1⟩
      [⟨"g1", 1000, 350, 0.06, 0, true⟩]).sum) ∧
    (∀ a b, matchmaking.select_generators_agis ⟨20, 200, 10, 0.1⟩
        [⟨"g1", 1000, 350, 0.06, 0, true⟩, ⟨"g2", 1000, 350, 0.06, 0, true⟩]
        [] 0 0 0 = some (a, b) → a ≠ b) :=
  ⟨agis_weight_floor_and_distinct.1 _ _ _,
    agis_weight_floor_and_distinct.2.1 _ _ (List.cons_ne_nil _ _),
    fun a b h => agis_weight_floor_and_distinct.2.2 _ _ _ _ _ _ (le_refl 0) a b h⟩

/-! ## Vote ingestion and battle issuance (`main.py`)

The SQLite database is a record of row lists.  Stage-5 side tables
(level_stats, player_profiles, player_sessions, trajectories) are outside
the modelled state; no claim concerns them.  UUIDs and clock reads are
passed in as oracle strings. -/

/-- Embeds the enum `VoteResult` of `models.py`; Pydantic rejects any other
value before the handler runs. -/
inductive VoteResult where
  | LEFT : VoteResult
  | RIGHT : VoteResult
  | TIE : VoteResult
  | SKIP : VoteResult
deriving DecidableEq

/-- String value of a `VoteResult` member. -/
def VoteResult.value : VoteResult → String
  | .LEFT => "LEFT"
  | .RIGHT => "RIGHT"
  | .TIE => "TIE"
  | .SKIP => "SKIP"

/-- Row of the `ratings` table. -/
structure RatingRow where
  generator_id : String
  rating_value : ℝ
  rd : ℝ
  volatility : ℝ
  games_played : ℕ
  wins : ℕ
  losses : ℕ
  ties : ℕ
  skips : ℕ
  updated_at_utc : String

/-- Row of the `battles` table. -/
structure BattleRow where
  battle_id : String
  session_id : String
  issued_at_utc : String
  expires_at_utc : Option String
  status : String
  left_level_id : String
  right_level_id : String
  left_generator_id : String
  right_generator_id : String
  matchmaking_policy : String
  created_at_utc : String
  updated_at_utc : String
deriving DecidableEq

/-- Row of the `votes` table.  The tag lists and the telemetry document are
kept structured; the database stores their JSON serializations
(`left_tags_json`, `right_tags_json`, `telemetry_json`). -/
structure VoteRow where
  vote_id : String
  battle_id : String
  session_id : String
  player_id : Option String
  created_at_utc : String
  result : String
  left_tags : List String
  right_tags : List String
  telemetry : JsonFields
  payload_hash : String
deriving DecidableEq

/-- The `rd_info` dict built by `update_ratings` for the audit trail. -/
structure RdInfo where
  rd_left_before : ℝ
  rd_left_after : ℝ
  rd_right_before : ℝ
  rd_right_after : ℝ

/-- Row of the `rating_events` table. -/
structure RatingEventRow where
  event_id : String
  vote_id : String
  battle_id : String
  left_generator_id : String
  right_generator_id : String
  result : String
  delta_left : ℝ
  delta_right : ℝ
  rd_left_before : Option ℝ
  rd_left_after : Option ℝ
  rd_right_before : Option ℝ
  rd_right_after : Option ℝ
  created_at_utc : String

/-- The mutable database state touched by the core. -/
structure DBState where
  generators : List (String × Bool)
  levels : List (String × String)
  battles : List BattleRow
  votes : List VoteRow
  ratings : List RatingRow
  pair_stats : List matchmaking.PairStatsRow
  rating_events : List RatingEventRow

namespace main

/-- The closed tag vocabulary `ALLOWED_TAGS`. -/
def ALLOWED_TAGS : List String :=
  ["fun", "boring", "good_flow", "creative", "unfair", "confusing",
   "too_hard", "too_easy", "not_mario_like"]

/-- Unique key of the `ratings` table. -/
def ratingKey (r : RatingRow) : String := r.generator_id

/-- Unique key of the `battles` table. -/
def battleKey (b : BattleRow) : String := b.battle_id

/-- Unique key of the `votes` table (`votes.battle_id` is unique). -/
def voteKey (v : VoteRow) : String := v.battle_id

/-- Embeds `ensure_ratings_exist`. -/
def ensure_ratings_exist (rows : List RatingRow) (generator_id : String)
    (initial_rating initial_rd initial_volatility : ℝ) (now_utc : String) :
    List RatingRow :=
  if (findBy ratingKey generator_id rows).isNone then
    rows ++ [⟨generator_id, initial_rating, initial_rd, initial_volatility,
      0, 0, 0, 0, 0, now_utc⟩]
  else rows

noncomputable section

open Classical

/-- Row fetch of `update_ratings` with Python-truthiness defaults: a zero
`rd` or `volatility` column falls back to the initial value
(`left_row["rd"] if left_row and left_row["rd"] else initial_rd`). -/
def fetchTriple (rows : List RatingRow) (generator_id : String)
    (initial_rating initial_rd initial_volatility : ℝ) : ℝ × ℝ × ℝ :=
  match findBy ratingKey generator_id rows with
  | some row => (row.rating_value,
      if row.rd = 0 then initial_rd else row.rd,
      if row.volatility = 0 then initial_volatility else row.volatility)
  | none => (initial_rating, initial_rd, initial_volatility)

/-- The SKIP branch row update of `update_ratings`:
`SET skips = skips + 1, updated_at_utc = ?`. -/
def bumpSkip (now_utc : String) (row : RatingRow) : RatingRow :=
  { row with skips := row.skips + 1, updated_at_utc := now_utc }

/-- The non-SKIP row update of `update_ratings`: new Glicko triple,
`games_played + 1`, and the counter named by `counter_update`. -/
def applyGlicko (nr : glicko2.GlickoRating) (counter : String)
    (now_utc : String) (row : RatingRow) : RatingRow :=
  { row with
    rating_value := nr.rating,
    rd := nr.rd,
    volatility := nr.volatility,
    games_played := row.games_played + 1,
    wins := row.wins + (if counter = "wins" then 1 else 0),
    losses := row.losses + (if counter = "losses" then 1 else 0),
    ties := row.ties + (if counter = "ties" then 1 else 0),
    updated_at_utc := now_utc }

/-- Embeds `update_ratings`: ensure both rating rows, then either the SKIP
branch (bump `skips` on both sides, zero deltas, empty `rd_info`) or the
Glicko-2 branch.  `none` models an exception escaping from
`update_ratings_glicko2`. -/
def update_ratings (rows : List RatingRow)
    (left_generator_id right_generator_id result now_utc : String)
    (initial_rating initial_rd initial_volatility : ℝ) :
    Option (List RatingRow × ℝ × ℝ × Option RdInfo) :=
  let rows1 := ensure_ratings_exist rows left_generator_id initial_rating
    initial_rd initial_volatility now_utc
  let rows2 := ensure_ratings_exist rows1 right_generator_id initial_rating
    initial_rd initial_volatility now_utc
  if result = "SKIP" then
    some (updateBy ratingKey right_generator_id (bumpSkip now_utc)
      (updateBy ratingKey left_generator_id (bumpSkip now_utc) rows2), 0, 0, none)
  else
    let lt := fetchTriple rows2 left_generator_id initial_rating initial_rd
      initial_volatility
    let rt := fetchTriple rows2 right_generator_id initial_rating initial_rd
      initial_volatility
    match glicko2.update_ratings_glicko2 lt.1 lt.2.1 lt.2.2 rt.1 rt.2.1 rt.2.2
      result with
    | none => none
    | some (new_left, new_right) =>
      let delta_left := new_left.rating - lt.1
      let delta_right := new_right.rating - rt.1
      let left_counter := if result = "LEFT" then "wins"
        else if result = "RIGHT" then "losses" else "ties"
      let right_counter := if result = "LEFT" then "losses"
        else if result = "RIGHT" then "wins" else "ties"
      some (updateBy ratingKey right_generator_id
          (applyGlicko new_right right_counter now_utc)
          (updateBy ratingKey left_generator_id
            (applyGlicko new_left left_counter now_utc) rows2),
        delta_left, delta_right,
        some ⟨lt.2.1, new_left.rd, rt.2.1, new_right.rd⟩)

/-- Embeds `insert_rating_event`: append one audit row. -/
def insert_rating_event (events : List RatingEventRow)
    (event_id vote_id battle_id left_generator_id right_generator_id
      result : String) (delta_left delta_right : ℝ) (now_utc : String)
    (rd_info : Option RdInfo) : List RatingEventRow :=
  events ++ [⟨event_id, vote_id, battle_id, left_generator_id,
    right_generator_id, result, delta_left, delta_right,
    rd_info.map RdInfo.rd_left_before, rd_info.map RdInfo.rd_left_after,
    rd_info.map RdInfo.rd_right_before, rd_info.map RdInfo.rd_right_after,
    now_utc⟩]

/-- Embeds the request model `VoteRequest`; `telemetry` is the dict produced
by `model_dump()` (empty when absent). -/
structure VoteRequest where
  client_version : String
  session_id : String
  player_id : Option String
  battle_id : String
  result : VoteResult
  left_tags : Option (List String)
  right_tags : Option (List String)
  telemetry : JsonFields

/-- Outcome of a vote submission: the accepted `vote_id`, or an error
envelope (code, HTTP status, retryable). -/
inductive VoteOutcome where
  | accepted (vote_id : String) : VoteOutcome
  | apiError (code : String) (http_status : ℕ) (retryable : Bool) : VoteOutcome
deriving DecidableEq

/-- Embeds the handler `submit_vote`: tag validation, canonical hash,
battle lookup, status/replay/conflict handling, then the transactional
accept path (insert vote, complete battle, update ratings, append the
rating event, update pair stats).  Every error path leaves the state
unchanged (the transaction aborts).  `now_utc`, `new_vote_id` and
`new_event_id` are the clock and UUID oracles. -/
def submit_vote (st : DBState) (req : VoteRequest)
    (initial_rating initial_rd initial_volatility : ℝ)
    (now_utc new_vote_id new_event_id : String) : VoteOutcome × DBState :=
  let left_tags_list := req.left_tags.getD []
  let right_tags_list := req.right_tags.getD []
  if (left_tags_list.filter (fun t => t ∉ ALLOWED_TAGS)) ≠ [] then
    (.apiError "INVALID_TAG" 400 false, st)
  else if (right_tags_list.filter (fun t => t ∉ ALLOWED_TAGS)) ≠ [] then
    (.apiError "INVALID_TAG" 400 false, st)
  else
    let payload_hash := compute_payload_hash req.battle_id req.session_id
      req.result.value left_tags_list right_tags_list req.telemetry
    match findBy battleKey req.battle_id st.battles with
    | none => (.apiError "BATTLE_NOT_FOUND" 404 false, st)
    | some battle =>
      if battle.status ≠ "ISSUED" then
        if battle.status = "COMPLETED" then
          match findBy voteKey req.battle_id st.votes with
          | some existing_vote =>
            if existing_vote.payload_hash = payload_hash then
              (.accepted existing_vote.vote_id, st)
            else (.apiError "DUPLICATE_VOTE_CONFLICT" 409 false, st)
          | none => (.apiError "BATTLE_ALREADY_VOTED" 409 false, st)
        else (.apiError "BATTLE_ALREADY_VOTED" 409 false, st)
      else if battle.session_id ≠ req.session_id then
        (.apiError "INVALID_PAYLOAD" 400 false, st)
      else
        match findBy voteKey req.battle_id st.votes with
        | some existing_vote =>
          if existing_vote.payload_hash = payload_hash then
            (.accepted existing_vote.vote_id, st)
          else (.apiError "DUPLICATE_VOTE_CONFLICT" 409 false, st)
        | none =>
          match update_ratings st.ratings battle.left_generator_id
            battle.right_generator_id req.result.value now_utc
            initial_rating initial_rd initial_volatility with
          | none => (.apiError "INTERNAL_ERROR" 500 true, st)
          | some (ratings2, delta_left, delta_right, rd_info) =>
            (.accepted new_vote_id,
              { st with
                votes := st.votes ++ [⟨new_vote_id, req.battle_id,
                  req.session_id, req.player_id, now_utc, req.result.value,
                  pySorted left_tags_list, pySorted right_tags_list,
                  req.telemetry, payload_hash⟩],
                battles := updateBy battleKey req.battle_id (fun b =>
                  { b with status := "COMPLETED", updated_at_utc := now_utc })
                  st.battles,
                ratings := ratings2,
                rating_events := insert_rating_event st.rating_events
                  new_event_id new_vote_id req.battle_id
                  battle.left_generator_id battle.right_generator_id
                  req.result.value delta_left delta_right now_utc rd_info,
                pair_stats := matchmaking.update_pair_stats st.pair_stats
                  battle.left_generator_id battle.right_generator_id
                  req.result.value now_utc })

/-- Embeds the `except sqlite3.IntegrityError` handler of `submit_vote`
(the only handler for a uniqueness violation on `votes.battle_id`): it
produces a bare INTERNAL_ERROR envelope without re-reading the existing
vote row. -/
def integrity_error_response : VoteOutcome := .apiError "INTERNAL_ERROR" 500 true

/-- Outcome of a battle issuance. -/
inductive BattleOutcome where
  | issued (battle_id : String) : BattleOutcome
  | apiError (code : String) (http_status : ℕ) (retryable : Bool) : BattleOutcome
deriving DecidableEq

/-- Embeds `get_active_generators_with_stats` of `matchmaking.py`: active
generators that own at least one level, with COALESCE defaults for a
missing ratings row. -/
def active_generators_with_stats (st : DBState) :
    List matchmaking.GeneratorStats :=
  (st.generators.filter (fun p => p.2 && st.levels.any (fun lv => lv.2 == p.1))).map
    (fun p =>
      match findBy ratingKey p.1 st.ratings with
      | some r => ⟨p.1, r.rating_value, r.rd, r.volatility, r.games_played, p.2⟩
      | none => ⟨p.1, 1000.0, 350.0, 0.06, 0, p.2⟩)

/-- Embeds `get_pair_counts` of `matchmaking.py`. -/
def get_pair_counts (st : DBState) : List ((String × String) × ℕ) :=
  st.pair_stats.map (fun r => ((r.gen1_id, r.gen2_id), r.battle_count))

/-- Embeds the handler `fetch_next_battle` under the default
`matchmaking_policy = "agis_v1"`.  `session_id_is_uuid` externalizes the
UUID parse, `pickLevel` the uniform level pick (`select_random_level`,
`ORDER BY RANDOM() LIMIT 1`), `new_battle_id` and `now_utc` the UUID and
clock oracles.  A `ValueError` from generator selection is reported as
NO_BATTLE_AVAILABLE with `retryable=False` and HTTP 503, before any row is
written. -/
def fetch_next_battle (st : DBState) (session_id : String)
    (session_id_is_uuid : Bool) (cfg : matchmaking.AgisConfig) (r1 r2 : ℝ)
    (fallback_idx : ℕ) (pickLevel : String → Option String)
    (new_battle_id now_utc : String) : BattleOutcome × DBState :=
  if ¬ session_id_is_uuid then (.apiError "INVALID_PAYLOAD" 400 false, st)
  else
    match matchmaking.select_generators_agis cfg (active_generators_with_stats st)
      (get_pair_counts st) r1 r2 fallback_idx with
    | none => (.apiError "NO_BATTLE_AVAILABLE" 503 false, st)
    | some (left_generator_id, right_generator_id) =>
      match pickLevel left_generator_id, pickLevel right_generator_id with
      | some left_level_id, some right_level_id =>
        if left_level_id = right_level_id then
          (.apiError "INTERNAL_ERROR" 500 true, st)
        else
          (.issued new_battle_id,
            { st with battles := st.battles ++ [⟨new_battle_id, session_id,
              now_utc, none, "ISSUED", left_level_id, right_level_id,
              left_generator_id, right_generator_id, "agis_v1", now_utc,
              now_utc⟩] })
      | _, _ => (.apiError "NO_BATTLE_AVAILABLE" 503 false, st)

end

end main

/-! ### Claim C2 -/

/-- Claim C2: for a battle in state COMPLETED with a stored vote, submitting
a CAST_VOTE request whose canonical payload hash equals the stored vote's
`payload_hash` returns accepted with the stored `vote_id` and performs no
writes: the entire database state (ratings, pair stats, battles, rating
events) is unchanged, so replaying a vote is observationally idempotent. -/
theorem submit_vote_replay_idempotent (st : DBState) (req : main.VoteRequest)
    (iR iRD iV : ℝ) (now vid eid : String) (b : BattleRow) (v : VoteRow)
    (hlt : (req.left_tags.getD []).filter (fun t => t ∉ main.ALLOWED_TAGS) = [])
    (hrt : (req.right_tags.getD []).filter (fun t => t ∉ main.ALLOWED_TAGS) = [])
    (hb : findBy main.battleKey req.battle_id st.battles = some b)
    (hstatus : b.status = "COMPLETED")
    (hv : findBy main.voteKey req.battle_id st.votes = some v)
    (hhash : v.payload_hash = compute_payload_hash req.battle_id req.session_id
      req.result.value (req.left_tags.getD []) (req.right_tags.getD [])
      req.telemetry) :
    main.submit_vote st req iR iRD iV now vid eid =
      (.accepted v.vote_id, st) := by
  simp only [main.submit_vote, hlt, hrt, hb, hstatus, hv, hhash]
  simp

/-! ### Claim C3 -/

/-- Claim C3: for a battle with a stored vote (COMPLETED, or ISSUED with a
matching session as in the defensive re-check), submitting a CAST_VOTE
request with valid tags whose canonical payload hash differs from the
stored vote's hash fails with DUPLICATE_VOTE_CONFLICT, HTTP 409,
non-retryable, and leaves the whole state unchanged: no new vote, no
rating change, no new rating event. -/
theorem submit_vote_conflict (st : DBState) (req : main.VoteRequest)
    (iR iRD iV : ℝ) (now vid eid : String) (b : BattleRow) (v : VoteRow)
    (hlt : (req.left_tags.getD []).filter (fun t => t ∉ main.ALLOWED_TAGS) = [])
    (hrt : (req.right_tags.getD []).filter (fun t => t ∉ main.ALLOWED_TAGS) = [])
    (hb : findBy main.battleKey req.battle_id st.battles = some b)
    (hstatus : b.status = "COMPLETED" ∨
      (b.status = "ISSUED" ∧ b.session_id = req.session_id))
    (hv : findBy main.voteKey req.battle_id st.votes = some v)
    (hhash : v.payload_hash ≠ compute_payload_hash req.battle_id req.session_id
      req.result.value (req.left_tags.getD []) (req.right_tags.getD [])
      req.telemetry) :
    main.submit_vote st req iR iRD iV now vid eid =
      (.apiError "DUPLICATE_VOTE_CONFLICT" 409 false, st) := by
  rcases hstatus with hc | ⟨hi, hs⟩
  · simp only [main.submit_vote, hlt, hrt, hb, hc, hv]
    simp [hhash]
  · simp only [main.submit_vote, hlt, hrt, hb, hi, hs, hv]
    simp [hhash]

/-! ### Claim C4 -/

/-- Claim C4 (code divergence): when the vote INSERT hits the uniqueness
violation on `votes.battle_id`, the handler of `submit_vote` answers with a
bare INTERNAL_ERROR envelope (HTTP 500, retryable); it does not re-read the
existing vote, so the response is neither the idempotent replay nor
DUPLICATE_VOTE_CONFLICT that the specification requires. -/
theorem integrity_error_maps_to_internal_error :
    main.integrity_error_response =
      main.VoteOutcome.apiError "INTERNAL_ERROR" 500 true ∧
    main.integrity_error_response ≠
      main.VoteOutcome.apiError "DUPLICATE_VOTE_CONFLICT" 409 false ∧
    ∀ vid, main.integrity_error_response ≠ main.VoteOutcome.accepted vid :=
  ⟨rfl, by decide, fun _ h => main.VoteOutcome.noConfusion h⟩

/-! ### Claim C8 -/

/-- Claim C8 (counterexample): with no eligible generators, NEXT_BATTLE
returns the NO_BATTLE_AVAILABLE envelope with `retryable = false` (HTTP
503), not `retryable = true` as the claim states: `fetch_next_battle` calls
`raise_api_error(ErrorCode.NO_BATTLE_AVAILABLE, ..., retryable=False,
status_code=503)`. -/
theorem fetch_next_battle_not_retryable :
    (main.fetch_next_battle ⟨[], [], [], [], [], [], []⟩ "s" true
      ⟨20, 200, 10, 0.1⟩ 0 0 0 (fun _ => none) "btl_x" "t0").1 =
      main.BattleOutcome.apiError "NO_BATTLE_AVAILABLE" 503 false ∧
    (main.fetch_next_battle ⟨[], [], [], [], [], [], []⟩ "s" true
      ⟨20, 200, 10, 0.1⟩ 0 0 0 (fun _ => none) "btl_x" "t0").1 ≠
      main.BattleOutcome.apiError "NO_BATTLE_AVAILABLE" 503 true := by
  constructor
  · rfl
  · intro h
    exact absurd (rfl.trans h) (by decide)

/-- Claim C8 (amended): when fewer than two active generators with at least
one level exist, NEXT_BATTLE fails with error code NO_BATTLE_AVAILABLE,
HTTP 503, whose envelope has `retryable = false`, and no battle row is
persisted (the state is unchanged). -/
theorem fetch_next_battle_no_battle_available (st : DBState)
    (session_id : String) (cfg : matchmaking.AgisConfig) (r1 r2 : ℝ)
    (fallback_idx : ℕ) (pickLevel : String → Option String)
    (new_battle_id now_utc : String)
    (hfew : (main.active_generators_with_stats st).length < 2) :
    main.fetch_next_battle st session_id true cfg r1 r2 fallback_idx pickLevel
      new_battle_id now_utc =
      (.apiError "NO_BATTLE_AVAILABLE" 503 false, st) := by
  simp only [main.fetch_next_battle, matchmaking.select_generators_agis,
    if_pos hfew]
  simp

/-- Claim C8 witness: the amended theorem applied at the empty state. -/
theorem fetch_next_battle_no_battle_available_witness :
    ((main.active_generators_with_stats ⟨[], [], [], [], [], [], []⟩).length < 2) ∧
    main.fetch_next_battle ⟨[], [], [], [], [], [], []⟩ "s" true
      ⟨20, 200, 10, 0.1⟩ 0 0 0 (fun _ => none) "btl_x" "t0" =
      (.apiError "NO_BATTLE_AVAILABLE" 503 false, ⟨[], [], [], [], [], [], []⟩) :=
  ⟨by decide,
    fetch_next_battle_no_battle_available ⟨[], [], [], [], [], [], []⟩ "s"
      ⟨20, 200, 10, 0.1⟩ 0 0 0 (fun _ => none) "btl_x" "t0" (by decide)⟩

/-- Concrete COMPLETED battle used by the vote witnesses. -/
def wBattleC2 : BattleRow :=
  ⟨"btl_1", "sess", "t0", none, "COMPLETED", "lv1", "lv2", "gL", "gR",
    "agis_v1", "t0", "t0"⟩

/-- Concrete stored vote whose hash matches a LEFT replay. -/
def wVoteC2 : VoteRow :=
  ⟨"v_stored", "btl_1", "sess", none, "t0", "LEFT", [], [], .nil,
    compute_payload_hash "btl_1" "sess" "LEFT" [] [] .nil⟩

/-- Concrete replay request. -/
def wReqC2 : main.VoteRequest :=
  ⟨"0.1.0", "sess", none, "btl_1", .LEFT, none, none, .nil⟩

/-- Concrete state for the replay witness. -/
def wStateC2 : DBState := ⟨[], [], [wBattleC2], [wVoteC2], [], [], []⟩

/-- Claim C2 witness: the replay theorem applied at a concrete state. -/
theorem submit_vote_replay_idempotent_witness :
    main.submit_vote wStateC2 wReqC2 1000 350 0.06 "t1" "v_new" "e_new" =
      (.accepted "v_stored", wStateC2) :=
  submit_vote_replay_idempotent wStateC2 wReqC2 1000 350 0.06 "t1" "v_new"
    "e_new" wBattleC2 wVoteC2 rfl rfl rfl rfl rfl rfl

/-- Concrete stored vote whose hash differs from any canonical hash. -/
def wVoteC3 : VoteRow :=
  ⟨"v_stored3", "btl_1", "sess", none, "t0", "LEFT", [], [], .nil, ""⟩

/-- Concrete conflicting request (different result). -/
def wReqC3 : main.VoteRequest :=
  ⟨"0.1.0", "sess", none, "btl_1", .RIGHT, none, none, .nil⟩

/-- Concrete state for the conflict witness. -/
def wStateC3 : DBState := ⟨[], [], [wBattleC2], [wVoteC3], [], [], []⟩

set_option maxRecDepth 100000 in
/-- Claim C3 witness: the conflict theorem applied at a concrete state. -/
theorem submit_vote_conflict_witness :
    main.submit_vote wStateC3 wReqC3 1000 350 0.06 "t1" "v_new" "e_new" =
      (.apiError "DUPLICATE_VOTE_CONFLICT" 409 false, wStateC3) :=
  submit_vote_conflict wStateC3 wReqC3 1000 350 0.06 "t1" "v_new" "e_new"
    wBattleC2 wVoteC3 rfl rfl rfl (Or.inl rfl) rfl (by decide)

/-! ### Claim C5 -/

/-- Claim C5: for an accepted SKIP vote, the rating engine is the identity
on both triples; in the ingestion transaction the two rating rows change
only in their `skips` counter (+1) and timestamp, every other generator's
row is untouched, the pair-stats row gains one `skips` (its win and tie
counters unchanged), and the appended RatingEvent carries zero deltas and
empty RD info. -/
theorem submit_vote_skip_frame (st : DBState) (req : main.VoteRequest)
    (iR iRD iV : ℝ) (now vid eid : String) (b : BattleRow)
    (rowL rowR : RatingRow) (pr : matchmaking.PairStatsRow)
    (hres : req.result = VoteResult.SKIP)
    (hlt : (req.left_tags.getD []).filter (fun t => t ∉ main.ALLOWED_TAGS) = [])
    (hrt : (req.right_tags.getD []).filter (fun t => t ∉ main.ALLOWED_TAGS) = [])
    (hb : findBy main.battleKey req.battle_id st.battles = some b)
    (hst : b.status = "ISSUED")
    (hsess : b.session_id = req.session_id)
    (hnov : findBy main.voteKey req.battle_id st.votes = none)
    (hgne : b.left_generator_id ≠ b.right_generator_id)
    (hrl : findBy main.ratingKey b.left_generator_id st.ratings = some rowL)
    (hrr : findBy main.ratingKey b.right_generator_id st.ratings = some rowR)
    (hpair : findBy matchmaking.pairKey
      (matchmaking.normalize_pair_key b.left_generator_id b.right_generator_id)
      st.pair_stats = some pr) :
    (∀ lr lrd lv rr rrd rv : ℝ,
      glicko2.update_ratings_glicko2 lr lrd lv rr rrd rv "SKIP" =
        some (⟨lr, lrd, lv⟩, ⟨rr, rrd, rv⟩)) ∧
    ∃ st', main.submit_vote st req iR iRD iV now vid eid =
        (.accepted vid, st') ∧
      findBy main.ratingKey b.left_generator_id st'.ratings =
        some (main.bumpSkip now rowL) ∧
      findBy main.ratingKey b.right_generator_id st'.ratings =
        some (main.bumpSkip now rowR) ∧
      (∀ g, g ≠ b.left_generator_id → g ≠ b.right_generator_id →
        findBy main.ratingKey g st'.ratings = findBy main.ratingKey g st.ratings) ∧
      findBy matchmaking.pairKey
        (matchmaking.normalize_pair_key b.left_generator_id b.right_generator_id)
        st'.pair_stats =
        some ⟨(matchmaking.normalize_pair_key b.left_generator_id
            b.right_generator_id).1,
          (matchmaking.normalize_pair_key b.left_generator_id
            b.right_generator_id).2,
          pr.battle_count + 1, pr.gen1_wins, pr.gen2_wins, pr.ties,
          pr.skips + 1, now⟩ ∧
      st'.rating_events = st.rating_events ++ [⟨eid, vid, req.battle_id,
        b.left_generator_id, b.right_generator_id, "SKIP", 0, 0,
        none, none, none, none, now⟩] := by
  refine ⟨fun lr lrd lv rr rrd rv => rfl, ?_⟩
  have hens1 : main.ensure_ratings_exist st.ratings b.left_generator_id
      iR iRD iV now = st.ratings := by
    simp [main.ensure_ratings_exist, hrl]
  have hens2 : main.ensure_ratings_exist st.ratings b.right_generator_id
      iR iRD iV now = st.ratings := by
    simp [main.ensure_ratings_exist, hrr]
  have hupd : main.update_ratings st.ratings b.left_generator_id
      b.right_generator_id "SKIP" now iR iRD iV =
      some (updateBy main.ratingKey b.right_generator_id (main.bumpSkip now)
        (updateBy main.ratingKey b.left_generator_id (main.bumpSkip now)
          st.ratings), 0, 0, none) := by
    simp only [main.update_ratings, hens1, hens2]
    simp
  have hmain : main.submit_vote st req iR iRD iV now vid eid =
      (.accepted vid,
        { st with
          votes := st.votes ++ [⟨vid, req.battle_id, req.session_id,
            req.player_id, now, "SKIP", pySorted (req.left_tags.getD []),
            pySorted (req.right_tags.getD []), req.telemetry,
            compute_payload_hash req.battle_id req.session_id "SKIP"
              (req.left_tags.getD []) (req.right_tags.getD []) req.telemetry⟩],
          battles := updateBy main.battleKey req.battle_id (fun b =>
            { b with status := "COMPLETED", updated_at_utc := now }) st.battles,
          ratings := updateBy main.ratingKey b.right_generator_id
            (main.bumpSkip now) (updateBy main.ratingKey b.left_generator_id
              (main.bumpSkip now) st.ratings),
          rating_events := main.insert_rating_event st.rating_events eid vid
            req.battle_id b.left_generator_id b.right_generator_id "SKIP"
            0 0 now none,
          pair_stats := matchmaking.update_pair_stats st.pair_stats
            b.left_generator_id b.right_generator_id "SKIP" now }) := by
    simp only [main.submit_vote, hlt, hrt, hb, hres, VoteResult.value, hnov,
      hupd, hst, hsess]
    simp
  refine ⟨_, hmain, ?_, ?_, ?_, ?_, ?_⟩
  · rw [findBy_updateBy_ne main.ratingKey b.left_generator_id
      b.right_generator_id (main.bumpSkip now) _ (fun r => rfl) (Ne.symm hgne),
      findBy_updateBy_self main.ratingKey b.left_generator_id
        (main.bumpSkip now) _ (fun r => rfl), hrl]
    rfl
  · rw [findBy_updateBy_self main.ratingKey b.right_generator_id
      (main.bumpSkip now) _ (fun r => rfl),
      findBy_updateBy_ne main.ratingKey b.right_generator_id
        b.left_generator_id (main.bumpSkip now) _ (fun r => rfl) hgne, hrr]
    rfl
  · intro g hgl hgr
    rw [findBy_updateBy_ne main.ratingKey g b.right_generator_id
      (main.bumpSkip now) _ (fun r => rfl) (Ne.symm hgr),
      findBy_updateBy_ne main.ratingKey g b.left_generator_id
        (main.bumpSkip now) _ (fun r => rfl) (Ne.symm hgl)]
  · by_cases hlt2 : sLt b.left_generator_id b.right_generator_id = true
    · have hnpk : matchmaking.normalize_pair_key b.left_generator_id
          b.right_generator_id = (b.left_generator_id, b.right_generator_id) := by
        simp [matchmaking.normalize_pair_key, hlt2]
      rw [hnpk] at hpair ⊢
      have hup2 : matchmaking.update_pair_stats st.pair_stats
          b.left_generator_id b.right_generator_id "SKIP" now =
          matchmaking.pairUpsert st.pair_stats b.left_generator_id
            b.right_generator_id 0 0 0 1 now := by
        simp [matchmaking.update_pair_stats, hlt2]
      rw [hup2, matchmaking.pairUpsert_findBy, hpair]
      simp
    · rw [Bool.not_eq_true] at hlt2
      have hnpk : matchmaking.normalize_pair_key b.left_generator_id
          b.right_generator_id = (b.right_generator_id, b.left_generator_id) := by
        simp [matchmaking.normalize_pair_key, hlt2]
      rw [hnpk] at hpair ⊢
      have hup2 : matchmaking.update_pair_stats st.pair_stats
          b.left_generator_id b.right_generator_id "SKIP" now =
          matchmaking.pairUpsert st.pair_stats b.right_generator_id
            b.left_generator_id 0 0 0 1 now := by
        simp [matchmaking.update_pair_stats, hlt2]
      rw [hup2, matchmaking.pairUpsert_findBy, hpair]
      simp
  · simp [main.insert_rating_event]

/-- Concrete ISSUED battle for the SKIP witness. -/
def wBattleC5 : BattleRow :=
  ⟨"btl_5", "sess", "t0", none, "ISSUED", "lv1", "lv2", "gA", "gB",
    "agis_v1", "t0", "t0"⟩

/-- Concrete rating row of generator gA. -/
def wRowA : RatingRow := ⟨"gA", 1000, 350, 0.06, 0, 0, 0, 0, 0, "t0"⟩

/-- Concrete rating row of generator gB. -/
def wRowB : RatingRow := ⟨"gB", 1000, 350, 0.06, 0, 0, 0, 0, 0, "t0"⟩

/-- Concrete pair-stats row of the pair (gA, gB). -/
def wPairAB : matchmaking.PairStatsRow := ⟨"gA", "gB", 1, 1, 0, 0, 0, "t0"⟩

/-- Concrete state for the SKIP witness. -/
def wStateC5 : DBState :=
  ⟨[], [], [wBattleC5], [], [wRowA, wRowB], [wPairAB], []⟩

/-- Concrete SKIP request. -/
def wReqC5 : main.VoteRequest :=
  ⟨"0.1.0", "sess", none, "btl_5", .SKIP, none, none, .nil⟩

/-- Claim C5 witness: the SKIP-frame theorem applied at a concrete state. -/
theorem submit_vote_skip_frame_witness :
    (∀ lr lrd lv rr rrd rv : ℝ,
      glicko2.update_ratings_glicko2 lr lrd lv rr rrd rv "SKIP" =
        some (⟨lr, lrd, lv⟩, ⟨rr, rrd, rv⟩)) ∧
    ∃ st', main.submit_vote wStateC5 wReqC5 1000 350 0.06 "t1" "v5" "e5" =
        (.accepted "v5", st') ∧
      findBy main.ratingKey "gA" st'.ratings = some (main.bumpSkip "t1" wRowA) ∧
      findBy main.ratingKey "gB" st'.ratings = some (main.bumpSkip "t1" wRowB) :=
  have h := submit_vote_skip_frame wStateC5 wReqC5 1000 350 0.06 "t1" "v5" "e5"
    wBattleC5 wRowA wRowB wPairAB rfl rfl rfl rfl rfl rfl rfl (by decide)
    rfl rfl rfl
  ⟨h.1, h.2.imp (fun st' hc => ⟨hc.1, hc.2.1, hc.2.2.1⟩)⟩

/-- Claim C4 witness: the handler response evaluated against a concrete
accepted outcome. -/
theorem integrity_error_maps_to_internal_error_witness :
    main.integrity_error_response ≠ main.VoteOutcome.accepted "v1" :=
  integrity_error_maps_to_internal_error.2.2 "v1"
